/-
Verification of the okta-auth authentication client.

This file gives a shallow embedding, in Lean 4, of the Go sources of the
wearefair/okta-auth repository:

  * package `factors` (public factor descriptors),
  * package `api` (wire model: transactions, factors, profile decoding),
  * the `okta`-package copy of the factor model in doc.go (preference
    ordering and sorting),
  * the client state machine in the okta package (Authenticate,
    handleAuthUserFlow, handleMFARequired, startMFA, handleMFAChallenge,
    cancelCurrentFactor, handleFactorTypeU2F / Code / Push,
    sendTransactionRequest, sendRequest).

Modelling conventions:

  * Go strings are Lean `String`; Go `int` is Lean `Int` where the sign
    matters (sentinel -1 indices) and `Nat` for counters.
  * A JSON body received from the server is abstracted by its possible
    decodings: a `Body` records the raw text (used for `%q` logging) and
    the result of `json.Unmarshal` into `AuthenticationTransaction` and
    into `APIError` (`none` = the unmarshal call fails).
  * Effects are made explicit: every HTTP POST, debug-log string, prompt
    callback, `fmt.Println` and backoff sleep is recorded as an `Event`
    in a trace; the HTTP transport and the prompt callbacks are oracle
    functions supplied in a `Client` record.
  * The recursive state machine is given fuel; each helper function is
    parameterised by the recursive entry point `recur`, exactly at the
    call sites where the Go code calls `c.handleAuthUserFlow(t, false)`.
-/
import Mathlib

namespace OktaAuth

/-- The string `s` occurs as a contiguous substring of `m`. -/
def containsSub (m s : String) : Prop := ∃ a b, m = a ++ s ++ b

/-! ## Package `factors` (public factor descriptors)

Source: the `factors` package (FactorType constants and the public
`Factor` struct with at most one populated profile pointer). -/

namespace factors

abbrev FactorType := String

def FactorTypePush : FactorType := "push"
def FactorTypeSMS : FactorType := "sms"
def FactorTypeCall : FactorType := "call"
def FactorTypeU2F : FactorType := "u2f"
def FactorTypeWebAuthN : FactorType := "webauthn"
def FactorTypeToken : FactorType := "token"
def FactorTypeTokenSoftwareTOTP : FactorType := "token:software:totp"
def FactorTypeTokenHardware : FactorType := "token:hardware"
def FactorTypeQuestion : FactorType := "question"

structure ProfileQuestion where
  QuestionText : String := ""
  deriving DecidableEq

structure ProfileSMS where
  PhoneNumber : String := ""
  deriving DecidableEq

structure ProfileCall where
  PhoneNumber : String := ""
  PhoneExtension : String := ""
  deriving DecidableEq

structure ProfileToken where
  CredentialId : String := ""
  deriving DecidableEq

/-- Public factor descriptor; in Go each profile field is a nil-able
pointer and at most one is populated. -/
structure Factor where
  Id : String := ""
  FactorType : FactorType := ""
  Provider : String := ""
  ProfileQuestion : Option ProfileQuestion := none
  ProfileSMS : Option ProfileSMS := none
  ProfileCall : Option ProfileCall := none
  ProfileToken : Option ProfileToken := none
  deriving DecidableEq

end factors

/-! ## Package `api` (wire model)

Source: api/factors.go and api/transaction.go. -/

namespace api

abbrev FactorResult := String

def FactorResultWaiting : FactorResult := "WAITING"
def FactorResultCancelled : FactorResult := "CANCELLED"
def FactorResultTimeout : FactorResult := "TIMEOUT"
def FactorResultTimeWindowExceeded : FactorResult := "TIME_WINDOW_EXCEEDED"
def FactorResultPasscodeReplayed : FactorResult := "PASSCODE_REPLAYED"
def FactorResultError : FactorResult := "ERROR"
def FactorResultRejected : FactorResult := "REJECTED"
def FactorResultSuccess : FactorResult := "SUCCESS"

abbrev TransactionState := String

def StateSuccess : TransactionState := "SUCCESS"
def StatePasswordWarn : TransactionState := "PASSWORD_WARN"
def StatePasswordExpired : TransactionState := "PASSWORD_EXPIRED"
def StateRecovery : TransactionState := "RECOVERY"
def StateLockedOut : TransactionState := "LOCKED_OUT"
def StateMFARequired : TransactionState := "MFA_REQUIRED"
def StateMFAChallenge : TransactionState := "MFA_CHALLENGE"
def StateMFAEnroll : TransactionState := "MFA_ENROLL"
def StateMFAEnrollActivate : TransactionState := "MFA_ENROLL_ACTIVATE"

structure APIErrorCause where
  ErrorSummary : String := ""
  deriving DecidableEq

structure APIError where
  ErrorCode : String := ""
  ErrorSummary : String := ""
  ErrorLink : String := ""
  ErrorId : String := ""
  ErrorCauses : List APIErrorCause := []
  deriving DecidableEq

structure AuthenticationContext where
  DeviceToken : String := ""
  deriving DecidableEq

structure AuthenticationRequest where
  Username : String := ""
  Password : String := ""
  RelayState : String := ""
  Context : AuthenticationContext := ⟨""⟩
  deriving DecidableEq

structure Link where
  HREF : String := ""
  deriving DecidableEq

structure Links where
  Verify : Link := ⟨""⟩
  Cancel : Link := ⟨""⟩
  Next : Link := ⟨""⟩
  Prev : Link := ⟨""⟩
  deriving DecidableEq

structure FactorProfileQuestion where
  Question : String := ""
  QuestionText : String := ""
  Answer : String := ""
  deriving DecidableEq

structure FactorProfileSMS where
  PhoneNumber : String := ""
  deriving DecidableEq

structure FactorProfileCall where
  PhoneNumber : String := ""
  PhoneExtension : String := ""
  deriving DecidableEq

structure FactorProfileToken where
  CredentialId : String := ""
  deriving DecidableEq

structure FactorProfileU2F where
  CredentialId : String := ""
  AppId : String := ""
  Version : String := ""
  deriving DecidableEq

structure FactorProfileWebAuthN where
  CredentialId : String := ""
  deriving DecidableEq

/-- The dynamic value stored in the Go `Profile interface{}` field after a
successful decode: exactly one of the registered profile struct types. -/
inductive FactorProfile
  | question (p : FactorProfileQuestion)
  | sms (p : FactorProfileSMS)
  | call (p : FactorProfileCall)
  | token (p : FactorProfileToken)
  | u2f (p : FactorProfileU2F)
  | webauthn (p : FactorProfileWebAuthN)
  deriving DecidableEq

structure Challenge where
  Challenge : String := ""
  Nonce : String := ""
  TimeoutSeconds : Int := 0
  deriving DecidableEq

structure FactorEmbedded where
  Challenge : Challenge := ⟨"", "", 0⟩
  deriving DecidableEq

/-- api.Factor; `Profile` is `interface{}` in Go (`none` = left nil). -/
structure Factor where
  Id : String := ""
  FactorType : factors.FactorType := ""
  Provider : String := ""
  Profile : Option FactorProfile := none
  Links : Links := ⟨⟨""⟩, ⟨""⟩, ⟨""⟩, ⟨""⟩⟩
  Embedded : FactorEmbedded := ⟨⟨"", "", 0⟩⟩
  deriving DecidableEq

abbrev Factors := List Factor

def knownFactors : List factors.FactorType :=
  [factors.FactorTypeU2F,
   factors.FactorTypeWebAuthN,
   factors.FactorTypeToken,
   factors.FactorTypeTokenSoftwareTOTP,
   factors.FactorTypeTokenHardware,
   factors.FactorTypePush,
   factors.FactorTypeSMS,
   factors.FactorTypeCall,
   factors.FactorTypeQuestion]

/-- api.indexOfFactorType: linear scan over `knownFactors`, -1 if absent. -/
def indexOfFactorType (factorType : factors.FactorType) : Int :=
  match knownFactors.findIdx? (fun t => t == factorType) with
  | some i => (i : Int)
  | none => -1

/-- api.Factors.SupportedFactors: keep the factors whose type is known. -/
def Factors.SupportedFactors (f : Factors) : Factors :=
  f.filter (fun factor => indexOfFactorType factor.FactorType != -1)

/-- Abstraction of the raw JSON bytes of a factor's `profile` payload: the
string fields that the registered profile structs can read (a field absent
from the JSON object is `none`; `json.Unmarshal` then leaves the Go zero
value `""`).  Decoding such a well-typed object into any of the profile
structs succeeds in Go (unknown fields are ignored), so the per-variant
decoders below are total. -/
structure RawProfile where
  question : Option String := none
  questionText : Option String := none
  answer : Option String := none
  phoneNumber : Option String := none
  phoneExtension : Option String := none
  credentialId : Option String := none
  appId : Option String := none
  version : Option String := none
  deriving DecidableEq

def decodeProfileQuestion (r : RawProfile) : FactorProfileQuestion :=
  ⟨r.question.getD "", r.questionText.getD "", r.answer.getD ""⟩

def decodeProfileSMS (r : RawProfile) : FactorProfileSMS :=
  ⟨r.phoneNumber.getD ""⟩

def decodeProfileCall (r : RawProfile) : FactorProfileCall :=
  ⟨r.phoneNumber.getD "", r.phoneExtension.getD ""⟩

def decodeProfileToken (r : RawProfile) : FactorProfileToken :=
  ⟨r.credentialId.getD ""⟩

def decodeProfileU2F (r : RawProfile) : FactorProfileU2F :=
  ⟨r.credentialId.getD "", r.appId.getD "", r.version.getD ""⟩

def decodeProfileWebAuthN (r : RawProfile) : FactorProfileWebAuthN :=
  ⟨r.credentialId.getD ""⟩

/-- The unmarshalling helper struct (api.factorHelper): the envelope fields
plus the profile as a raw message.  `Profile = none` models
`len(factor.Profile) == 0` (absent or empty payload). -/
structure factorHelper where
  Id : String := ""
  FactorType : factors.FactorType := ""
  Provider : String := ""
  Profile : Option RawProfile := none
  Links : Links := ⟨⟨""⟩, ⟨""⟩, ⟨""⟩, ⟨""⟩⟩
  Embedded : FactorEmbedded := ⟨⟨"", "", 0⟩⟩
  deriving DecidableEq

/-- api.Factor.UnmarshalJSON, after the outer unmarshal into
`factorHelper` has succeeded: copy the envelope fields, bail early with no
profile if the payload is empty, otherwise dispatch on the declared
FactorType to the one registered decoder; an unrecognized type leaves the
profile unset and is not an error. -/
def Factor.UnmarshalJSON (factor : factorHelper) : Factor :=
  let f : Factor :=
    { Id := factor.Id, FactorType := factor.FactorType,
      Provider := factor.Provider, Profile := none,
      Links := factor.Links, Embedded := factor.Embedded }
  match factor.Profile with
  | none => f
  | some raw =>
    if f.FactorType == factors.FactorTypeQuestion then
      { f with Profile := some (.question (decodeProfileQuestion raw)) }
    else if f.FactorType == factors.FactorTypeSMS then
      { f with Profile := some (.sms (decodeProfileSMS raw)) }
    else if f.FactorType == factors.FactorTypeCall then
      { f with Profile := some (.call (decodeProfileCall raw)) }
    else if f.FactorType == factors.FactorTypeToken
        || f.FactorType == factors.FactorTypeTokenSoftwareTOTP
        || f.FactorType == factors.FactorTypeTokenHardware then
      { f with Profile := some (.token (decodeProfileToken raw)) }
    else if f.FactorType == factors.FactorTypeU2F then
      { f with Profile := some (.u2f (decodeProfileU2F raw)) }
    else if f.FactorType == factors.FactorTypeWebAuthN then
      { f with Profile := some (.webauthn (decodeProfileWebAuthN raw)) }
    else
      -- Ignore any profile contents we don't understand
      f

structure UserProfile where
  Login : String := ""
  FirstName : String := ""
  LastName : String := ""
  deriving DecidableEq

structure User where
  Id : String := ""
  Profile : UserProfile := ⟨"", "", ""⟩
  deriving DecidableEq

structure Embedded where
  User : User := ⟨"", ⟨"", "", ""⟩⟩
  Factors : Factors := []
  Factor : Factor := {}
  deriving DecidableEq

/-- api.AuthenticationTransaction (time.Time kept as its RFC3339 text). -/
structure AuthenticationTransaction where
  StateToken : String := ""
  SessionToken : String := ""
  Status : TransactionState := ""
  ExpiresAt : String := ""
  RelayState : String := ""
  FactorResult : FactorResult := ""
  Embedded : Embedded := {}
  Links : Links := ⟨⟨""⟩, ⟨""⟩, ⟨""⟩, ⟨""⟩⟩
  deriving DecidableEq

structure FactorVerify where
  StateToken : String := ""
  deriving DecidableEq

structure FactorVerifyCode where
  FactorVerify : FactorVerify := ⟨""⟩
  PassCode : String := ""
  deriving DecidableEq

structure FactorVerifyU2F where
  FactorVerify : FactorVerify := ⟨""⟩
  ClientData : String := ""
  SignatureData : String := ""
  deriving DecidableEq

structure FactorVerifyPush where
  FactorVerify : FactorVerify := ⟨""⟩
  deriving DecidableEq

structure FactorVerifyWebAuthN where
  FactorVerify : FactorVerify := ⟨""⟩
  ClientData : String := ""
  SignatureData : String := ""
  AuthenticatorData : String := ""
  deriving DecidableEq

end api

/-! ## doc.go factor model (package okta copy)

Source: the okta-package model file (doc.go chunk) that defines its own
FactorType constants, the preference order `preferedFactorOrder`,
`indexOfFactorType` and the `sort.Interface` implementation on `Factors`
(`Len`/`Swap`/`Less`).  This is the version the sorting claim cites; its
known-kind list has no webauthn entry. -/

namespace docmodel

abbrev FactorType := String

def FactorTypePush : FactorType := "push"
def FactorTypeSMS : FactorType := "sms"
def FactorTypeCall : FactorType := "call"
def FactorTypeU2F : FactorType := "u2f"
def FactorTypeToken : FactorType := "token"
def FactorTypeTokenSoftwareTOTP : FactorType := "token:software:totp"
def FactorTypeTokenHardware : FactorType := "token:hardware"
def FactorTypeQuestion : FactorType := "question"

def preferedFactorOrder : List FactorType :=
  [FactorTypeU2F,
   FactorTypeToken,
   FactorTypeTokenSoftwareTOTP,
   FactorTypeTokenHardware,
   FactorTypePush,
   FactorTypeSMS,
   FactorTypeCall,
   FactorTypeQuestion]

/-- doc.go indexOfFactorType: linear scan over `preferedFactorOrder`,
-1 if absent. -/
def indexOfFactorType (factorType : FactorType) : Int :=
  match preferedFactorOrder.findIdx? (fun t => t == factorType) with
  | some i => (i : Int)
  | none => -1

/-- The profile value behind doc.go's `Profile interface{}` field; the
doc.go profile struct shapes coincide with the api package's (question,
sms, call, token, u2f). -/
inductive FactorProfile
  | question (p : api.FactorProfileQuestion)
  | sms (p : api.FactorProfileSMS)
  | call (p : api.FactorProfileCall)
  | token (p : api.FactorProfileToken)
  | u2f (p : api.FactorProfileU2F)
  deriving DecidableEq

structure FactorEmbedded where
  Challenge : api.Challenge := ⟨"", "", 0⟩
  deriving DecidableEq

/-- doc.go Factor (doc.go's Links type has the same verify/cancel/next/prev
shape as api.Links, reused here). -/
structure Factor where
  Id : String := ""
  FactorType : FactorType := ""
  Provider : String := ""
  Profile : Option FactorProfile := none
  Links : api.Links := ⟨⟨""⟩, ⟨""⟩, ⟨""⟩, ⟨""⟩⟩
  Embedded : FactorEmbedded := ⟨⟨"", "", 0⟩⟩
  deriving DecidableEq

instance : Inhabited Factor := ⟨{}⟩

abbrev Factors := List Factor

/-- Lexicographic comparison of character lists by code point, the model
of Go's byte-lexicographic `strings.Compare(a, b) == -1` (identical on
the ASCII factor-kind names). -/
def charListLt : List Char → List Char → Bool
  | [], [] => false
  | [], _ :: _ => true
  | _ :: _, [] => false
  | a :: as, b :: bs =>
    if a.toNat < b.toNat then true
    else if b.toNat < a.toNat then false
    else charListLt as bs

/-- Model of Go `strings.Compare(a, b) == -1`: strict lexicographic order. -/
def stringLtGo (a b : String) : Bool := charListLt a.data b.data

/-- The element comparison performed by doc.go's `Factors.Less` on the
elements at positions i and j: rank known kinds by their index in
`preferedFactorOrder`; a known kind sorts before any unknown kind; two
unknown kinds fall back to `strings.Compare(iType, jType) == -1`,
i.e. strict lexicographic order on the kind strings. -/
def Factor.less (a b : Factor) : Bool :=
  let iType := a.FactorType
  let jType := b.FactorType
  let iIndex := indexOfFactorType iType
  let jIndex := indexOfFactorType jType
  if iIndex != -1 then
    if jIndex == -1 then true
    else decide (iIndex < jIndex)
  else if jIndex != -1 then false
  else stringLtGo iType jType

/-- doc.go Factors.Less (indexing into the slice). -/
def Factors.Less (f : Factors) (i j : Nat) : Bool :=
  Factor.less (f.getD i default) (f.getD j default)

/-- Insert `a` into a list sorted by `Factor.less`: walk past the
elements strictly `less` than `a`. -/
def insertSorted (a : Factor) : Factors → Factors
  | [] => [a]
  | b :: rest => if Factor.less b a then b :: insertSorted a rest else a :: b :: rest

/-- The result of `sort.Sort` on a `Factors` slice: a permutation of the
input that is sorted with respect to `Factors.Less`, i.e. no element
`Less` than an earlier one (proved below as `Pairwise`).  Go's sort is
comparison-based and unstable; for the Less above any two factors of
distinct kinds are strictly ordered, so the relative order of factors of
distinct kinds in the output is uniquely determined, and an insertion
sort realises the contract. -/
def sortFactors : Factors → Factors
  | [] => []
  | a :: rest => insertSorted a (sortFactors rest)

end docmodel

/-! ## The client (okta package)

Source: client.go (config, prompts interface) and the flow file
(Authenticate, handleAuthUserFlow, handleMFARequired, startMFA,
handleMFAChallenge, cancelCurrentFactor(WithErrorMessage),
handleFactorTypeU2F / Code / Push, sendTransactionRequest, sendRequest).

Effects are reified: every POST, log string, prompt call, println and
backoff sleep becomes an `Event`; the HTTP transport is an oracle indexed
by how many POSTs have been issued so far. -/

def unexpectedErrorMessage : String := "Encountered an unexpected error."

def timeoutErrorMessage : String := "Authentication Timed Out"

/-- The request bodies the client serializes to JSON; one constructor per
Go request struct that is ever passed to sendTransactionRequest. -/
inductive Request
  | auth (r : api.AuthenticationRequest)
  | verify (v : api.FactorVerify)
  | verifyCode (v : api.FactorVerifyCode)
  | verifyU2F (v : api.FactorVerifyU2F)
  | verifyPush (v : api.FactorVerifyPush)
  deriving DecidableEq

/-- A response body, abstracted by its raw text (used for `%q` logging)
and the outcomes of `json.Unmarshal` into each of the two target types
(`none` = that unmarshal call fails). -/
structure Body where
  raw : String := ""
  asTransaction : Option api.AuthenticationTransaction := none
  asAPIError : Option api.APIError := none
  deriving DecidableEq

/-- What `c.sendRequest` observes from the network: a failure of
`httpClient.Do`, or a status code with a body. -/
inductive SendRequestResult
  | transportError (msg : String)
  | response (status : Nat) (body : Body)
  deriving DecidableEq

structure VerifyU2FRequest where
  Facet : String := ""
  AppId : String := ""
  KeyHandle : String := ""
  Challenge : String := ""
  deriving DecidableEq

structure VerifyU2FResponse where
  ClientData : String := ""
  SignatureData : String := ""
  deriving DecidableEq

/-- One observable step of an execution.  `dispatch` marks each entry into
handleAuthUserFlow together with the autoAttemptU2F argument it received;
`log` carries the exact string handed to DebugLogger.Log. -/
inductive Event
  | log (msg : String)
  | post (url : String) (request : Request)
  | dispatch (status : api.TransactionState) (autoAttemptU2F : Bool)
  | sleepSeconds (n : Nat)
  | println (msg : String)
  | presentUserError (msg : String)
  | promptChooseFactor (choices : List factors.Factor)
  | promptCheckU2FPresence (request : VerifyU2FRequest)
  | promptVerifyU2F (request : VerifyU2FRequest)
  | promptVerifyCode (factor : factors.Factor)
  | promptVerifyPush
  deriving DecidableEq

/-- Go error values that can travel through the flow (`err.Error()` is
`GoErr.message`): TerminalError, NonFatalAuthError, *api.APIError used as
an error by the push poller, an error returned by a prompts callback, and
a plain errors.New value. -/
inductive GoErr
  | terminal (msg : String)
  | nonFatal (ErrorSummary : String)
  | api (e : api.APIError)
  | prompt (msg : String)
  | basic (msg : String)
  deriving DecidableEq

def GoErr.message : GoErr → String
  | .terminal msg => msg
  | .nonFatal s => s
  | .api e => e.ErrorSummary
  | .prompt msg => msg
  | .basic msg => msg

/-- Result of a flow function: the Go pair (sessionToken, error), plus the
two modelling outcomes (runtime panic of a failed single-value type
assertion; fuel exhaustion of the shallow embedding). -/
inductive Outcome
  | token (sessionToken : String)
  | failure (e : GoErr)
  | panicked
  | outOfFuel
  deriving DecidableEq

structure RunOut where
  trace : List Event
  next : Nat
  out : Outcome
  deriving DecidableEq

/-- The client together with its external collaborators: the transport
(indexed by the number of POSTs issued so far) and the Prompts callbacks. -/
structure Client where
  domain : String
  transport : Nat → String → Request → SendRequestResult
  checkU2FPresence : VerifyU2FRequest → Bool
  chooseFactor : List factors.Factor → Except String factors.Factor
  verifyU2F : VerifyU2FRequest → Except String VerifyU2FResponse
  verifyCode : factors.Factor → Except String String

abbrev Recur := Nat → api.AuthenticationTransaction → Bool → RunOut

/-- fmt `%q` for the strings this client logs (none contain characters
that Go would escape). -/
def goQuote (s : String) : String := "\"" ++ s ++ "\""

/-- fmt `%s` applied to a `*api.AuthenticationRequest` (no Stringer
methods, so fmt prints the fields): `&\x7bUsername Password RelayState
\x7bDeviceToken\x7d\x7d`. -/
def goStringAuthenticationRequest (r : api.AuthenticationRequest) : String :=
  "&\x7b" ++ r.Username ++ " " ++ r.Password ++ " " ++ r.RelayState ++
    " \x7b" ++ r.Context.DeviceToken ++ "\x7d\x7d"

/-- fmt `%#+v` of a request pointer (rendering of the field syntax is
abbreviated; the claims only inspect which fields a rendering exposes). -/
def goSharpV : Request → String
  | .auth r => "&api.AuthenticationRequest" ++ goStringAuthenticationRequest r
  | .verify v => "&api.FactorVerify\x7bStateToken:" ++ goQuote v.StateToken ++ "\x7d"
  | .verifyCode v =>
      "&api.FactorVerifyCode\x7bStateToken:" ++ goQuote v.FactorVerify.StateToken ++
        ", PassCode:" ++ goQuote v.PassCode ++ "\x7d"
  | .verifyU2F v =>
      "&api.FactorVerifyU2F\x7bStateToken:" ++ goQuote v.FactorVerify.StateToken ++
        ", ClientData:" ++ goQuote v.ClientData ++
        ", SignatureData:" ++ goQuote v.SignatureData ++ "\x7d"
  | .verifyPush v => "&api.FactorVerifyPush\x7bStateToken:" ++ goQuote v.FactorVerify.StateToken ++ "\x7d"

/-- fmt `%s` of the dynamic profile value in the wrong-profile log line
(contents are not inspected by any claim). -/
def profileString : Option api.FactorProfile → String
  | none => "<nil>"
  | some _ => "<profile>"

/-- c.sendRequest: log, marshal (marshalling of these request structs
cannot fail), POST, and return the status and body or the transport
error.  The POST itself advances the transport index. -/
def sendRequest (c : Client) (n : Nat) (url : String) (body : Request) :
    List Event × Nat × SendRequestResult :=
  let ev0 := Event.log ("Sending http request POST " ++ url)
  match c.transport n url body with
  | .transportError msg =>
      ([ev0, Event.post url body,
        Event.log ("Error sending request POST " ++ url ++ ": " ++ msg)],
       n + 1, .transportError msg)
  | .response status b =>
      ([ev0, Event.post url body,
        Event.log ("Got http response: status " ++ toString status ++ ", body " ++ goQuote b.raw)],
       n + 1, .response status b)

/-- The message of the json.Unmarshal error in the two decode-failure log
lines (its exact wording is irrelevant to every claim). -/
def unmarshalErrText : String := "unmarshal error"

/-- c.sendTransactionRequest: POST the serialized request; 200 decodes a
transaction, 429 is an immediate terminal error, other 4xx decode an
APIError, anything else (or a decode failure) is the terminal
"unexpected error"; a transport failure is logged (the Go code formats
the request itself with %s when it is an AuthenticationRequest, despite
the comment saying the password must not be logged) and becomes a
TerminalError. -/
def sendTransactionRequest (c : Client) (n : Nat) (url : String) (request : Request) :
    List Event × Nat × api.AuthenticationTransaction × Option api.APIError × Option GoErr :=
  let transaction : api.AuthenticationTransaction := {}
  let r0 := sendRequest c n url request
  let evs := r0.1
  let n' := r0.2.1
  match r0.2.2 with
  | .transportError msg =>
      -- Don't log the AuthenticationRequest, as that will contain a password
      -- (the Go branch then formats `request` itself via the %s verb)
      let logMsg :=
        match request with
        | .auth r => "Got error sending transaction request: error: " ++ goStringAuthenticationRequest r
        | _ => "Got error sending transaction request: request " ++ goSharpV request ++ ", error: " ++ msg
      (evs ++ [Event.log logMsg], n', transaction, none, some (.terminal msg))
  | .response status body =>
      if status == 200 then
        match body.asTransaction with
        | some t => (evs, n', t, none, none)
        | none =>
            (evs ++ [Event.log ("Got error unmarshaling authentication transaction: body " ++
                goQuote body.raw ++ ", error " ++ unmarshalErrText)],
             n', transaction, none, some (.terminal unexpectedErrorMessage))
      else if status == 429 then
        (evs, n', transaction, none, some (.terminal "Too many requests to Okta, try again later"))
      else if 400 ≤ status ∧ status < 500 then
        match body.asAPIError with
        | some apiError => (evs, n', transaction, some apiError, none)
        | none =>
            (evs ++ [Event.log ("Got error unmarshaling api error: body " ++
                goQuote body.raw ++ ", error " ++ unmarshalErrText)],
             n', transaction, none, some (.terminal unexpectedErrorMessage))
      else
        (evs ++ [Event.log ("Got unexpected server status code: body " ++
            goQuote body.raw ++ ", status " ++ toString status)],
         n', transaction, none, some (.terminal unexpectedErrorMessage))

def u2fProfileToChallenge (facet challenge : String) (profile : api.FactorProfileU2F) : VerifyU2FRequest :=
  { AppId := profile.AppId, Facet := facet, KeyHandle := profile.CredentialId, Challenge := challenge }

def apiFactorToPublicFactor (factor : api.Factor) : factors.Factor :=
  let re : factors.Factor :=
    { Id := factor.Id, FactorType := factor.FactorType, Provider := factor.Provider }
  match factor.Profile with
  | some (.question profile) => { re with ProfileQuestion := some ⟨profile.QuestionText⟩ }
  | some (.sms profile) => { re with ProfileSMS := some ⟨profile.PhoneNumber⟩ }
  | some (.call profile) => { re with ProfileCall := some ⟨profile.PhoneNumber, profile.PhoneExtension⟩ }
  | some (.token profile) => { re with ProfileToken := some ⟨profile.CredentialId⟩ }
  | _ => re

def apiFactorsToPublicFactors (facs : List api.Factor) : List factors.Factor :=
  facs.map apiFactorToPublicFactor

/-- startMFA: POST the factor's verify link with the state token; a
transport-level error is returned; an API-level rejection is shown to the
user; either way the flow re-enters the dispatcher on the returned
transaction with autoAttemptU2F forced to false. -/
def startMFA (c : Client) (recur : Recur) (n : Nat)
    (transaction : api.AuthenticationTransaction) (factor : api.Factor) : RunOut :=
  let s := sendTransactionRequest c n factor.Links.Verify.HREF (.verify ⟨transaction.StateToken⟩)
  let evs := s.1
  let n' := s.2.1
  let newTransaction := s.2.2.1
  match s.2.2.2.2 with
  | some e => ⟨evs, n', .failure e⟩
  | none =>
    let evs2 :=
      match s.2.2.2.1 with
      | some apiError =>
          evs ++ [Event.presentUserError
            ("Got error trying to use MFA " ++ factor.FactorType ++ ": " ++ apiError.ErrorSummary)]
      | none => evs
    let r := recur n' newTransaction false
    ⟨evs2 ++ r.trace, r.next, r.out⟩

/-- cancelCurrentFactor: POST the transaction's prev link with the state
token, then re-enter the dispatcher (autoAttemptU2F false); an API error
while cancelling is itself terminal. -/
def cancelCurrentFactor (c : Client) (recur : Recur) (n : Nat)
    (transaction : api.AuthenticationTransaction) : RunOut :=
  let request := Request.verify ⟨transaction.StateToken⟩
  let s := sendTransactionRequest c n transaction.Links.Prev.HREF request
  let evs := s.1
  let n' := s.2.1
  let newTransaction := s.2.2.1
  match s.2.2.2.2 with
  | some e => ⟨evs, n', .failure e⟩
  | none =>
    match s.2.2.2.1 with
    | some apiError =>
        ⟨evs ++ [Event.log ("Got error trying to cancel MFA factor: uri " ++
            goQuote transaction.Links.Prev.HREF ++ ", error: " ++ goQuote apiError.ErrorSummary)],
         n', .failure (.terminal unexpectedErrorMessage)⟩
    | none =>
        let r := recur n' newTransaction false
        ⟨evs ++ r.trace, r.next, r.out⟩

def cancelCurrentFactorWithErrorMessage (c : Client) (recur : Recur) (n : Nat)
    (transaction : api.AuthenticationTransaction) (msg : String) : RunOut :=
  let r := cancelCurrentFactor c recur n transaction
  ⟨Event.presentUserError msg :: r.trace, r.next, r.out⟩

/-- handleFactorTypeU2F: require the U2F profile variant (mismatch is the
unexpected-error cancel path), build the collaborator request from the
domain, profile and embedded challenge nonce (the context deadline from
TimeoutSeconds bounds the callback in real time, which is not modelled),
then POST the next link with the returned client/signature data. -/
def handleFactorTypeU2F (c : Client) (recur : Recur) (n : Nat)
    (transaction : api.AuthenticationTransaction) : RunOut :=
  match transaction.Embedded.Factor.Profile with
  | some (.u2f profile) =>
    let req : VerifyU2FRequest :=
      { Facet := c.domain, AppId := profile.AppId, KeyHandle := profile.CredentialId,
        Challenge := transaction.Embedded.Factor.Embedded.Challenge.Nonce }
    (match c.verifyU2F req with
     | .error emsg =>
        let r := cancelCurrentFactor c recur n transaction
        ⟨Event.promptVerifyU2F req :: Event.presentUserError ("Failed to authenticate: " ++ emsg ++ "\n") :: r.trace,
         r.next, r.out⟩
     | .ok authResp =>
        let verifyReq := Request.verifyU2F ⟨⟨transaction.StateToken⟩, authResp.ClientData, authResp.SignatureData⟩
        let s := sendTransactionRequest c n transaction.Links.Next.HREF verifyReq
        let evs := s.1
        let n' := s.2.1
        let newTransaction := s.2.2.1
        match s.2.2.2.2 with
        | some e => ⟨Event.promptVerifyU2F req :: evs, n', .failure e⟩
        | none =>
          match s.2.2.2.1 with
          | some apiError =>
              let r := cancelCurrentFactorWithErrorMessage c recur n' transaction apiError.ErrorSummary
              ⟨Event.promptVerifyU2F req :: evs ++ r.trace, r.next, r.out⟩
          | none =>
              let r := recur n' newTransaction false
              ⟨Event.promptVerifyU2F req :: evs ++ r.trace, r.next, r.out⟩)
  | p =>
    let r := cancelCurrentFactorWithErrorMessage c recur n transaction unexpectedErrorMessage
    ⟨Event.log ("Profile was not of type FactorProfileU2F: " ++ profileString p) :: r.trace,
     r.next, r.out⟩

/-- handleFactorTypeCode (software TOTP, SMS, call): ask the collaborator
for a code (an error cancels with "Cancelled"), POST the next link with
exactly the state token and the pass code; an API rejection cancels with
the server's summary. -/
def handleFactorTypeCode (c : Client) (recur : Recur) (n : Nat)
    (transaction : api.AuthenticationTransaction) : RunOut :=
  let pub := apiFactorToPublicFactor transaction.Embedded.Factor
  match c.verifyCode pub with
  | .error _ =>
      let r := cancelCurrentFactorWithErrorMessage c recur n transaction "Cancelled"
      ⟨Event.promptVerifyCode pub :: r.trace, r.next, r.out⟩
  | .ok code =>
      let verifyReq := Request.verifyCode ⟨⟨transaction.StateToken⟩, code⟩
      let s := sendTransactionRequest c n transaction.Links.Next.HREF verifyReq
      let evs := s.1
      let n' := s.2.1
      let newTransaction := s.2.2.1
      match s.2.2.2.2 with
      | some e => ⟨Event.promptVerifyCode pub :: evs, n', .failure e⟩
      | none =>
        match s.2.2.2.1 with
        | some apiError =>
            let r := cancelCurrentFactorWithErrorMessage c recur n' transaction apiError.ErrorSummary
            ⟨Event.promptVerifyCode pub :: evs ++ r.trace, r.next, r.out⟩
        | none =>
            let r := recur n' newTransaction false
            ⟨Event.promptVerifyCode pub :: evs ++ r.trace, r.next, r.out⟩

/-- The backoff.Retry loop of handleFactorTypePush, with
backoff.WithMaxRetries(backoff.NewConstantBackOff(3 seconds), 10):
the operation runs once, then (after a 3-second sleep) again for each
remaining retry; a transport or API error and a REJECTED factor result
are backoff.Permanent and stop immediately; Success stops with no error;
anything else is the transient timeout error, retried until the retry
budget is exhausted.  Returns the trace, the next transport index, the
final value of the captured newTransaction variable, and the error
backoff.Retry returns (`none` = nil). -/
def pushPollLoop (c : Client) (pollURL : String) (verifyReq : Request) :
    Nat → Nat → List Event × Nat × api.AuthenticationTransaction × Option GoErr
  | retriesLeft, n =>
    let s := sendTransactionRequest c n pollURL verifyReq
    let evs := s.1
    let n' := s.2.1
    let newTransaction := s.2.2.1
    match s.2.2.2.2 with
    | some e => (evs, n', newTransaction, some e)
    | none =>
      match s.2.2.2.1 with
      | some apiError => (evs, n', newTransaction, some (.api apiError))
      | none =>
        if newTransaction.Status == api.StateSuccess then
          (evs, n', newTransaction, none)
        else if newTransaction.FactorResult == api.FactorResultRejected then
          (evs ++ [Event.println "Authentication Request rejected"], n', newTransaction,
           some (.nonFatal "Authentication Rejected"))
        else
          match retriesLeft with
          | 0 => (evs, n', newTransaction, some (.nonFatal timeoutErrorMessage))
          | r + 1 =>
            let rest := pushPollLoop c pollURL verifyReq r n'
            (evs ++ Event.sleepSeconds 3 :: rest.1, rest.2)

/-- handleFactorTypePush: POST the next link to dispatch the push (a
failure there cancels the factor), notify the user, poll the new
transaction's next link under the backoff policy, and afterwards: a
non-fatal timeout/rejection prints its notice, POSTs the cancel link of
the last polled transaction once, and is returned to the caller; any
other error cancels the factor with its message; success re-enters the
dispatcher on the final transaction with autoAttemptU2F false. -/
def handleFactorTypePush (c : Client) (recur : Recur) (n : Nat)
    (transaction0 : api.AuthenticationTransaction) : RunOut :=
  let verifyReq := Request.verifyPush ⟨⟨transaction0.StateToken⟩⟩
  let s := sendTransactionRequest c n transaction0.Links.Next.HREF verifyReq
  let evs := s.1
  let n1 := s.2.1
  let transaction := s.2.2.1
  match s.2.2.2.2 with
  | some _ =>
      let r := cancelCurrentFactorWithErrorMessage c recur n1 transaction "Cancelled"
      ⟨evs ++ r.trace, r.next, r.out⟩
  | none =>
    match s.2.2.2.1 with
    | some apiError =>
        let r := cancelCurrentFactorWithErrorMessage c recur n1 transaction apiError.ErrorSummary
        ⟨evs ++ r.trace, r.next, r.out⟩
    | none =>
      let poll := pushPollLoop c transaction.Links.Next.HREF verifyReq 10 n1
      let evsAll := evs ++ Event.promptVerifyPush :: poll.1
      let n2 := poll.2.1
      let newTransaction := poll.2.2.1
      match poll.2.2.2 with
      | some (.nonFatal s') =>
          let evs3 :=
            if s' == timeoutErrorMessage then
              [Event.println "Authentication Timed Out - please reject the current Okta Auth Request on your phone then try again"]
            else []
          let cancelSend := sendTransactionRequest c n2 newTransaction.Links.Cancel.HREF verifyReq
          ⟨evsAll ++ evs3 ++ cancelSend.1, cancelSend.2.1, .failure (.nonFatal s')⟩
      | some e =>
          let r := cancelCurrentFactorWithErrorMessage c recur n2 transaction (GoErr.message e)
          ⟨evsAll ++ r.trace, r.next, r.out⟩
      | none =>
          let r := recur n2 newTransaction false
          ⟨evsAll ++ r.trace, r.next, r.out⟩

/-- handleMFAChallenge: dispatch on the embedded factor's kind. -/
def handleMFAChallenge (c : Client) (recur : Recur) (n : Nat)
    (transaction : api.AuthenticationTransaction) : RunOut :=
  let ft := transaction.Embedded.Factor.FactorType
  if ft == factors.FactorTypeU2F then
    handleFactorTypeU2F c recur n transaction
  else if ft == factors.FactorTypeTokenSoftwareTOTP || ft == factors.FactorTypeSMS
      || ft == factors.FactorTypeCall then
    handleFactorTypeCode c recur n transaction
  else if ft == factors.FactorTypePush then
    handleFactorTypePush c recur n transaction
  else
    cancelCurrentFactorWithErrorMessage c recur n transaction "Sorry, that factor is not supported yet."

/-- Result of the auto-select scan in handleMFARequired. -/
inductive AutoScan
  | fallthru
  | panicScan
  | found (factor : api.Factor)
  deriving DecidableEq

/-- The `for _, factor := range supported` loop of handleMFARequired:
for each U2F factor (when autoAttemptU2F), assert the U2F profile (a
single-value type assertion, so a mismatch panics) and consult
CheckU2FPresence; the first hit is selected. -/
def autoAttemptLoop (c : Client) (autoAttemptU2F : Bool) :
    List api.Factor → List Event × AutoScan
  | [] => ([], .fallthru)
  | factor :: rest =>
    if factor.FactorType == factors.FactorTypeU2F && autoAttemptU2F then
      match factor.Profile with
      | some (.u2f p) =>
        let req := u2fProfileToChallenge c.domain "" p
        if c.checkU2FPresence req then
          ([Event.promptCheckU2FPresence req], .found factor)
        else
          let t := autoAttemptLoop c autoAttemptU2F rest
          (Event.promptCheckU2FPresence req :: t.1, t.2)
      | _ => ([], .panicScan)
    else
      autoAttemptLoop c autoAttemptU2F rest

/-- handleMFARequired: filter to the supported factors (none ⇒ terminal
failure), auto-select a present U2F key if permitted, otherwise offer the
public translations to ChooseFactor (whose error aborts the flow),
re-resolve the chosen id against the supported list, and start
verification for the match (unknown id ⇒ terminal failure). -/
def handleMFARequired (c : Client) (recur : Recur) (n : Nat)
    (transaction : api.AuthenticationTransaction) (autoAttemptU2F : Bool) : RunOut :=
  let supported := api.Factors.SupportedFactors transaction.Embedded.Factors
  if supported.length == 0 then
    ⟨[], n, .failure (.terminal "No supported MFA types found")⟩
  else
    let t := autoAttemptLoop c autoAttemptU2F supported
    let evs := t.1
    match t.2 with
    | .panicScan => ⟨evs, n, .panicked⟩
    | .found factor =>
        let r := startMFA c recur n transaction factor
        ⟨evs ++ r.trace, r.next, r.out⟩
    | .fallthru =>
      let publicFactors := apiFactorsToPublicFactors supported
      match c.chooseFactor publicFactors with
      | .error emsg => ⟨evs ++ [Event.promptChooseFactor publicFactors], n, .failure (.prompt emsg)⟩
      | .ok factor =>
        match supported.find? (fun apiFactor => apiFactor.Id == factor.Id) with
        | some apiFactor =>
            let r := startMFA c recur n transaction apiFactor
            ⟨evs ++ Event.promptChooseFactor publicFactors :: r.trace, r.next, r.out⟩
        | none =>
            ⟨evs ++ [Event.promptChooseFactor publicFactors], n,
             .failure (.terminal ("Factor with id " ++ goQuote factor.Id ++ " was not found"))⟩

/-- handleAuthUserFlow: the recursive dispatcher on the transaction
status.  The Go recursion is given fuel; every entry records a `dispatch`
event carrying the autoAttemptU2F argument, and all recursive entries
made by the handlers pass `false`. -/
def handleAuthUserFlow (c : Client) : Nat → Nat → api.AuthenticationTransaction → Bool → RunOut
  | 0, n, _, _ => ⟨[], n, .outOfFuel⟩
  | fuel + 1, n, transaction, autoAttemptU2F =>
    let entry := [Event.dispatch transaction.Status autoAttemptU2F,
                  Event.log ("Handling auth user flow: status " ++ goQuote transaction.Status)]
    let recur : Recur := handleAuthUserFlow c fuel
    let r : RunOut :=
      if transaction.Status == api.StateSuccess then
        ⟨[], n, .token transaction.SessionToken⟩
      else if transaction.Status == api.StatePasswordExpired then
        ⟨[], n, .failure (.terminal ("Your password is expired, login to " ++ c.domain ++ " to resolve."))⟩
      else if transaction.Status == api.StateRecovery then
        ⟨[], n, .failure (.terminal ("Your account is in recovery, login to " ++ c.domain ++ " to resolve."))⟩
      else if transaction.Status == api.StateLockedOut then
        ⟨[], n, .failure (.terminal "Your account has been locked, please contact your administrator for assistance.")⟩
      else if transaction.Status == api.StateMFAEnroll || transaction.Status == api.StateMFAEnrollActivate then
        ⟨[], n, .failure (.terminal ("You are required to enroll an MFA method, login to " ++ c.domain ++ " to resolve."))⟩
      else if transaction.Status == api.StateMFARequired then
        handleMFARequired c recur n transaction autoAttemptU2F
      else if transaction.Status == api.StateMFAChallenge then
        handleMFAChallenge c recur n transaction
      else
        ⟨[], n, .failure (.terminal ("Unknown user state " ++ transaction.Status ++ ", contact your administrator for assistance."))⟩
    ⟨entry ++ r.trace, r.next, r.out⟩

/-- Authenticate: POST the username/password to /api/v1/authn, then run
the state machine with autoAttemptU2F true on the first dispatch. -/
def Authenticate (c : Client) (fuel : Nat) (username password : String) : RunOut :=
  let url := c.domain ++ "/api/v1/authn"
  let evs0 := [Event.log ("Posting auth request to " ++ goQuote url ++ " with username " ++ goQuote username ++ " ")]
  let s := sendTransactionRequest c 0 url (.auth { Username := username, Password := password })
  let evs := s.1
  let n' := s.2.1
  let transaction := s.2.2.1
  match s.2.2.2.2 with
  | some e => ⟨evs0 ++ evs, n', .failure e⟩
  | none =>
    match s.2.2.2.1 with
    | some apiError =>
        ⟨evs0 ++ evs ++ [Event.log apiError.ErrorSummary], n', .failure (.basic "Failed to authenticate")⟩
    | none =>
        let r := handleAuthUserFlow c fuel n' transaction true
        ⟨evs0 ++ evs ++ r.trace, r.next, r.out⟩

/-! ## Trace observations -/

/-- The HTTP POSTs of a trace, in order: (url, request body). -/
def postEvents (tr : List Event) : List (String × Request) :=
  tr.filterMap (fun e => match e with | .post url r => some (url, r) | _ => none)

/-- The backoff sleeps of a trace, in seconds. -/
def sleepEvents (tr : List Event) : List Nat :=
  tr.filterMap (fun e => match e with | .sleepSeconds k => some k | _ => none)

/-- The autoAttemptU2F arguments of the dispatcher entries of a trace. -/
def dispatchFlags (tr : List Event) : List Bool :=
  tr.filterMap (fun e => match e with | .dispatch _ b => some b | _ => none)

/-- The strings handed to DebugLogger.Log during a trace. -/
def logMessages (tr : List Event) : List String :=
  tr.filterMap (fun e => match e with | .log m => some m | _ => none)

def isPromptVerifyCode (e : Event) : Bool :=
  match e with | .promptVerifyCode _ => true | _ => false

/-- A recursion stub for exercising a single handler in isolation. -/
def stopRecur : Recur := fun n _ _ => ⟨[], n, .outOfFuel⟩

/-! ## Concrete fixtures used by the claim theorems -/

/-- A client whose transport always fails (httpClient.Do error). -/
def c1client : Client :=
  { domain := "https://test.okta.com",
    transport := fun _ _ _ => .transportError "connection refused",
    checkU2FPresence := fun _ => false,
    chooseFactor := fun _ => .error "abort",
    verifyU2F := fun _ => .ok {},
    verifyCode := fun _ => .ok "" }

/-- The string the flow hands to DebugLogger.Log when the authentication
POST fails at the transport level (fmt renders the request struct, fields
Username, Password, RelayState and Context in order). -/
def c1msg : String :=
  "Got error sending transaction request: error: &\x7bjdoe hunter2  \x7b\x7d\x7d"

def c3err : api.APIError := { ErrorCode := "E0000004", ErrorSummary := "Authentication failed" }

def c3body : Body := { raw := "apierr", asAPIError := some c3err }

def c3client : Client :=
  { domain := "https://test.okta.com",
    transport := fun _ _ _ => .response 403 c3body,
    checkU2FPresence := fun _ => false,
    chooseFactor := fun _ => .error "abort",
    verifyU2F := fun _ => .ok {},
    verifyCode := fun _ => .ok "" }

def c10tx : api.AuthenticationTransaction := { StateToken := "st0", Status := api.StateMFARequired }

def c10client : Client :=
  { domain := "https://test.okta.com",
    transport := fun _ _ _ => .response 200 { raw := "tx", asTransaction := some c10tx },
    checkU2FPresence := fun _ => false,
    chooseFactor := fun _ => .error "abort",
    verifyU2F := fun _ => .ok {},
    verifyCode := fun _ => .ok "" }

/-- The factor kinds for which Factor.UnmarshalJSON has a registered
profile decoder (the cases of its switch). -/
def profileDecoderKinds : List factors.FactorType :=
  [factors.FactorTypeQuestion, factors.FactorTypeSMS, factors.FactorTypeCall,
   factors.FactorTypeToken, factors.FactorTypeTokenSoftwareTOTP,
   factors.FactorTypeTokenHardware, factors.FactorTypeU2F, factors.FactorTypeWebAuthN]

/-- Which profile variant a decoded profile is, as a tag for matching
against the factor kind. -/
def profileVariant : api.FactorProfile → String
  | .question _ => "question"
  | .sms _ => "sms"
  | .call _ => "call"
  | .token _ => "token"
  | .u2f _ => "u2f"
  | .webauthn _ => "webauthn"

/-- A push factor entry with a non-empty profile payload (Okta push
factors do carry a profile on the wire). -/
def c6pushHelper : api.factorHelper :=
  { Id := "opf001", FactorType := factors.FactorTypePush, Provider := "OKTA",
    Profile := some { credentialId := some "dade.murphy@example.com" } }

/-- An SMS factor entry with a phone-number profile payload. -/
def c6smsHelper : api.factorHelper :=
  { Id := "sms001", FactorType := factors.FactorTypeSMS, Provider := "OKTA",
    Profile := some { phoneNumber := some "+1 XXX-XXX-5555" } }

def c7unknown1 : docmodel.Factor := { FactorType := "unknown1" }

def c7unknown2 : docmodel.Factor := { FactorType := "unknown2" }

def c7u2f : docmodel.Factor := { FactorType := docmodel.FactorTypeU2F }

def c7token : docmodel.Factor := { FactorType := docmodel.FactorTypeToken }

/-- A body whose bytes decode to the transaction `t`. -/
def scriptBody (t : api.AuthenticationTransaction) : Body :=
  { raw := "tx", asTransaction := some t }

/-- A client over a scripted transport: the k-th POST (counting from 0)
receives status 200 with a body decoding to `g k`. -/
def scriptClient (g : Nat → api.AuthenticationTransaction) : Client :=
  { domain := "https://test.okta.com",
    transport := fun k _ _ => .response 200 (scriptBody (g k)),
    checkU2FPresence := fun _ => false,
    chooseFactor := fun _ => .error "abort",
    verifyU2F := fun _ => .ok {},
    verifyCode := fun _ => .ok "" }

/-- The events of one successful scripted POST. -/
def scriptPostTrace (url : String) (req : Request) : List Event :=
  [Event.log ("Sending http request POST " ++ url), Event.post url req,
   Event.log ("Got http response: status " ++ toString (200 : Nat) ++ ", body " ++ goQuote "tx")]

/-- The poll-loop trace when every poll is transient: r+1 polls with a
3-second sleep between consecutive polls. -/
def transientPollTrace (url : String) (req : Request) : Nat → List Event
  | 0 => scriptPostTrace url req
  | r + 1 => scriptPostTrace url req ++ Event.sleepSeconds 3 :: transientPollTrace url req r

/-- The poll-loop trace when polls 0..j-1 are transient and poll j is
rejected: j+1 polls, j sleeps, and the rejection println. -/
def rejectedPollTrace (url : String) (req : Request) : Nat → List Event
  | 0 => scriptPostTrace url req ++ [Event.println "Authentication Request rejected"]
  | j + 1 => scriptPostTrace url req ++ Event.sleepSeconds 3 :: rejectedPollTrace url req j

/-- An MFA_CHALLENGE push transaction whose poll result is still
WAITING. -/
def c2wait : api.AuthenticationTransaction :=
  { StateToken := "st", Status := api.StateMFAChallenge,
    FactorResult := api.FactorResultWaiting,
    Embedded := { Factor := { Id := "opf1", FactorType := factors.FactorTypePush } },
    Links := { Next := ⟨"https://test.okta.com/next"⟩,
               Cancel := ⟨"https://test.okta.com/cancel"⟩,
               Prev := ⟨"https://test.okta.com/prev"⟩ } }

/-- The same transaction once the push has been REJECTED on the phone. -/
def c5rej : api.AuthenticationTransaction :=
  { c2wait with FactorResult := api.FactorResultRejected }

def pushR : Request := .verifyPush ⟨⟨"st"⟩⟩

/-- Transport script: always WAITING. -/
def c2g : Nat → api.AuthenticationTransaction := fun _ => c2wait

def c2run : RunOut := handleFactorTypePush (scriptClient c2g) stopRecur 0 c2wait

/-- Transport script: WAITING for the dispatch and the first two polls,
REJECTED on the third poll. -/
def c5g : Nat → api.AuthenticationTransaction := fun k => if k ≤ 2 then c2wait else c5rej

/-- An MFA_CHALLENGE transaction whose embedded factor is a hardware
token (kind "token:hardware"). -/
def c4txn : api.AuthenticationTransaction :=
  { StateToken := "st", Status := api.StateMFAChallenge,
    Embedded := { Factor := { Id := "hw1", FactorType := factors.FactorTypeTokenHardware,
                              Profile := some (.token ⟨"cred"⟩) } },
    Links := { Next := ⟨"https://test.okta.com/next"⟩,
               Cancel := ⟨"https://test.okta.com/cancel"⟩,
               Prev := ⟨"https://test.okta.com/prev"⟩ } }

/-- An MFA_CHALLENGE transaction whose embedded factor is an SMS
factor. -/
def c4smsTxn : api.AuthenticationTransaction :=
  { StateToken := "st", Status := api.StateMFAChallenge,
    Embedded := { Factor := { Id := "sms1", FactorType := factors.FactorTypeSMS,
                              Profile := some (.sms ⟨"+1 XXX-XXX-5555"⟩) } },
    Links := { Next := ⟨"https://test.okta.com/next"⟩,
               Cancel := ⟨"https://test.okta.com/cancel"⟩,
               Prev := ⟨"https://test.okta.com/prev"⟩ } }

/-- A factor with a verify link, for exercising startMFA. -/
def c9factor : api.Factor :=
  { Id := "f1", FactorType := factors.FactorTypeSMS,
    Links := { Verify := ⟨"https://test.okta.com/verify"⟩ } }

/-- No dispatcher entry in the trace carries autoAttemptU2F = true. -/
def NoTrueDispatch (l : List Event) : Prop :=
  ∀ s : api.TransactionState, Event.dispatch s true ∉ l

/-! ## Theorems -/

/-- C1: refuted by the code.  When the authentication POST fails at the
transport level, sendTransactionRequest takes the branch commented
"Don't log the AuthenticationRequest, as that will contain a password"
but passes `request` — not `err` — to the %s verb, so the string handed
to DebugLogger.Log renders the request struct and contains the password
supplied to Authenticate. -/
theorem C1_password_logged_on_transport_error :
    Event.log c1msg ∈ (Authenticate c1client 1 "jdoe" "hunter2").trace ∧
    containsSub c1msg "hunter2" := by
  constructor
  · decide
  · exact ⟨"Got error sending transaction request: error: &\x7bjdoe ", "  \x7b\x7d\x7d", rfl⟩

/-- C3: sendTransactionRequest maps a 200 response to the decoded
transaction; a non-429 4xx response to the decoded APIError beside a nil
error; 429 to the terminal too-many-requests error with no APIError; and
any other status, or a decode failure on either decoded path, to the
terminal unexpected-error condition. -/
theorem C3_sendTransactionRequest_status_mapping
    (c : Client) (n : Nat) (url : String) (request : Request)
    (status : Nat) (body : Body)
    (h : c.transport n url request = .response status body) :
    (status = 200 → ∀ t, body.asTransaction = some t →
      (sendTransactionRequest c n url request).2.2 = (t, none, none)) ∧
    (400 ≤ status → status < 500 → status ≠ 429 → ∀ e, body.asAPIError = some e →
      (sendTransactionRequest c n url request).2.2 = ({}, some e, none)) ∧
    (status = 429 →
      (sendTransactionRequest c n url request).2.2 =
        ({}, none, some (.terminal "Too many requests to Okta, try again later"))) ∧
    (status ≠ 200 → status ≠ 429 → ¬(400 ≤ status ∧ status < 500) →
      (sendTransactionRequest c n url request).2.2 =
        ({}, none, some (.terminal unexpectedErrorMessage))) ∧
    (status = 200 → body.asTransaction = none →
      (sendTransactionRequest c n url request).2.2 =
        ({}, none, some (.terminal unexpectedErrorMessage))) ∧
    (400 ≤ status → status < 500 → status ≠ 429 → body.asAPIError = none →
      (sendTransactionRequest c n url request).2.2 =
        ({}, none, some (.terminal unexpectedErrorMessage))) := by
  refine ⟨?_, ?_, ?_, ?_, ?_, ?_⟩
  · intro h200 t ht
    subst h200
    simp [sendTransactionRequest, sendRequest, h, ht]
  · intro h4 h5 h9 e he
    have h200 : (status == 200) = false := beq_eq_false_iff_ne.mpr (by omega)
    have h429 : (status == 429) = false := beq_eq_false_iff_ne.mpr h9
    simp only [sendTransactionRequest, sendRequest, h, h200, h429]
    simp [if_pos (And.intro h4 h5), he]
  · intro h429
    subst h429
    simp [sendTransactionRequest, sendRequest, h]
  · intro h200 h429 hno4
    have b200 : (status == 200) = false := beq_eq_false_iff_ne.mpr h200
    have b429 : (status == 429) = false := beq_eq_false_iff_ne.mpr h429
    simp only [sendTransactionRequest, sendRequest, h, b200, b429]
    simp [if_neg hno4]
  · intro h200 ht
    subst h200
    simp [sendTransactionRequest, sendRequest, h, ht]
  · intro h4 h5 h9 he
    have h200 : (status == 200) = false := beq_eq_false_iff_ne.mpr (by omega)
    have h429 : (status == 429) = false := beq_eq_false_iff_ne.mpr h9
    simp only [sendTransactionRequest, sendRequest, h, h200, h429]
    simp [if_pos (And.intro h4 h5), he]

/-- C3 witness: a 403 response whose body decodes to an APIError is
returned as that APIError with a nil error. -/
theorem C3_sendTransactionRequest_status_mapping_witness :
    (sendTransactionRequest c3client 0 "https://test.okta.com/api/v1/authn" (.verify ⟨"st"⟩)).2.2 =
      ({}, some c3err, none) :=
  (C3_sendTransactionRequest_status_mapping c3client 0 "https://test.okta.com/api/v1/authn"
      (.verify ⟨"st"⟩) 403 c3body rfl).2.1 (by omega) (by omega) (by omega) c3err rfl

/-- C10: for every call of sendTransactionRequest at most one of its two
error results is non-nil, and when both are nil the returned transaction
is exactly the decoding of a body received with HTTP status 200. -/
theorem C10_sendTransactionRequest_exclusive_errors
    (c : Client) (n : Nat) (url : String) (request : Request) :
    ((sendTransactionRequest c n url request).2.2.2.1 = none ∨
     (sendTransactionRequest c n url request).2.2.2.2 = none) ∧
    ((sendTransactionRequest c n url request).2.2.2.1 = none →
     (sendTransactionRequest c n url request).2.2.2.2 = none →
     ∃ body, c.transport n url request = .response 200 body ∧
       body.asTransaction = some (sendTransactionRequest c n url request).2.2.1) := by
  rcases htr : c.transport n url request with msg | ⟨status, body⟩
  · constructor
    · left
      simp [sendTransactionRequest, sendRequest, htr]
    · intro _ habs
      exfalso
      revert habs
      simp [sendTransactionRequest, sendRequest, htr]
  · by_cases h200 : status = 200
    · subst h200
      rcases hbt : body.asTransaction with _ | t
      · constructor
        · left
          simp [sendTransactionRequest, sendRequest, htr, hbt]
        · intro _ habs
          exfalso
          revert habs
          simp [sendTransactionRequest, sendRequest, htr, hbt]
      · constructor
        · left
          simp [sendTransactionRequest, sendRequest, htr, hbt]
        · intro _ _
          refine ⟨body, rfl, ?_⟩
          simp [sendTransactionRequest, sendRequest, htr, hbt]
    · have b200 : (status == 200) = false := beq_eq_false_iff_ne.mpr h200
      by_cases h429 : status = 429
      · subst h429
        constructor
        · left
          simp [sendTransactionRequest, sendRequest, htr]
        · intro _ habs
          exfalso
          revert habs
          simp [sendTransactionRequest, sendRequest, htr, b200]
      · have b429 : (status == 429) = false := beq_eq_false_iff_ne.mpr h429
        by_cases h4 : 400 ≤ status ∧ status < 500
        · rcases hbe : body.asAPIError with _ | e
          · constructor
            · left
              simp [sendTransactionRequest, sendRequest, htr, b200, b429, if_pos h4, hbe]
            · intro _ habs
              exfalso
              revert habs
              simp [sendTransactionRequest, sendRequest, htr, b200, b429, if_pos h4, hbe]
          · constructor
            · right
              simp [sendTransactionRequest, sendRequest, htr, b200, b429, if_pos h4, hbe]
            · intro habs _
              exfalso
              revert habs
              simp [sendTransactionRequest, sendRequest, htr, b200, b429, if_pos h4, hbe]
        · constructor
          · left
            simp [sendTransactionRequest, sendRequest, htr, b200, b429, if_neg h4]
          · intro _ habs
            exfalso
            revert habs
            simp [sendTransactionRequest, sendRequest, htr, b200, b429, if_neg h4]

/-- C10 witness: on a 200 response that decodes, both error results are
nil and the transaction is the decoded body. -/
theorem C10_sendTransactionRequest_exclusive_errors_witness :
    ∃ body, c10client.transport 0 "u" (.verify ⟨"st"⟩) = .response 200 body ∧
      body.asTransaction = some (sendTransactionRequest c10client 0 "u" (.verify ⟨"st"⟩)).2.2.1 :=
  (C10_sendTransactionRequest_exclusive_errors c10client 0 "u" (.verify ⟨"st"⟩)).2 rfl rfl

/-- C6: refuted as stated.  push is in the known-kind set (knownFactors,
so push factors are supported and survive SupportedFactors), yet
Factor.UnmarshalJSON registers no profile decoder for push: a push entry
with a non-empty profile payload decodes with no populated profile
variant at all. -/
theorem C6_push_factor_profile_unset :
    api.indexOfFactorType factors.FactorTypePush ≠ -1 ∧
    c6pushHelper.Profile ≠ none ∧
    (api.Factor.UnmarshalJSON c6pushHelper).Profile = none := by decide

/-- C6 (amended): Factor.UnmarshalJSON always copies the envelope fields
and never errors in the modelled regime; an empty or absent profile
payload yields no profile; each kind with a registered decoder yields
exactly the one profile variant matching the kind; every other kind —
including push, a known kind with no registered decoder — leaves the
profile unset. -/
theorem C6_profile_dispatch_by_kind (h : api.factorHelper) :
    ((api.Factor.UnmarshalJSON h).Id = h.Id ∧
     (api.Factor.UnmarshalJSON h).FactorType = h.FactorType ∧
     (api.Factor.UnmarshalJSON h).Provider = h.Provider ∧
     (api.Factor.UnmarshalJSON h).Links = h.Links ∧
     (api.Factor.UnmarshalJSON h).Embedded = h.Embedded) ∧
    (h.Profile = none → (api.Factor.UnmarshalJSON h).Profile = none) ∧
    (∀ raw, h.Profile = some raw →
      (h.FactorType = factors.FactorTypeQuestion →
        (api.Factor.UnmarshalJSON h).Profile = some (.question (api.decodeProfileQuestion raw))) ∧
      (h.FactorType = factors.FactorTypeSMS →
        (api.Factor.UnmarshalJSON h).Profile = some (.sms (api.decodeProfileSMS raw))) ∧
      (h.FactorType = factors.FactorTypeCall →
        (api.Factor.UnmarshalJSON h).Profile = some (.call (api.decodeProfileCall raw))) ∧
      (h.FactorType = factors.FactorTypeToken ∨ h.FactorType = factors.FactorTypeTokenSoftwareTOTP ∨
          h.FactorType = factors.FactorTypeTokenHardware →
        (api.Factor.UnmarshalJSON h).Profile = some (.token (api.decodeProfileToken raw))) ∧
      (h.FactorType = factors.FactorTypeU2F →
        (api.Factor.UnmarshalJSON h).Profile = some (.u2f (api.decodeProfileU2F raw))) ∧
      (h.FactorType = factors.FactorTypeWebAuthN →
        (api.Factor.UnmarshalJSON h).Profile = some (.webauthn (api.decodeProfileWebAuthN raw))) ∧
      (h.FactorType ∉ profileDecoderKinds → (api.Factor.UnmarshalJSON h).Profile = none)) := by
  refine ⟨?_, ?_, ?_⟩
  · rcases hp : h.Profile with _ | raw <;>
      simp [api.Factor.UnmarshalJSON, hp] <;> split_ifs <;> simp
  · intro hp
    simp [api.Factor.UnmarshalJSON, hp]
  · intro raw hp
    refine ⟨?_, ?_, ?_, ?_, ?_, ?_, ?_⟩
    · intro hk
      simp [api.Factor.UnmarshalJSON, hp, hk, factors.FactorTypeQuestion]
    · intro hk
      simp [api.Factor.UnmarshalJSON, hp, hk, factors.FactorTypeSMS, factors.FactorTypeQuestion]
    · intro hk
      simp [api.Factor.UnmarshalJSON, hp, hk, factors.FactorTypeCall, factors.FactorTypeQuestion,
        factors.FactorTypeSMS]
    · intro hk
      rcases hk with hk | hk | hk <;>
        simp [api.Factor.UnmarshalJSON, hp, hk, factors.FactorTypeToken,
          factors.FactorTypeTokenSoftwareTOTP, factors.FactorTypeTokenHardware,
          factors.FactorTypeQuestion, factors.FactorTypeSMS, factors.FactorTypeCall]
    · intro hk
      simp [api.Factor.UnmarshalJSON, hp, hk, factors.FactorTypeU2F, factors.FactorTypeQuestion,
        factors.FactorTypeSMS, factors.FactorTypeCall, factors.FactorTypeToken,
        factors.FactorTypeTokenSoftwareTOTP, factors.FactorTypeTokenHardware]
    · intro hk
      simp [api.Factor.UnmarshalJSON, hp, hk, factors.FactorTypeWebAuthN, factors.FactorTypeQuestion,
        factors.FactorTypeSMS, factors.FactorTypeCall, factors.FactorTypeToken,
        factors.FactorTypeTokenSoftwareTOTP, factors.FactorTypeTokenHardware, factors.FactorTypeU2F]
    · intro hk
      simp only [profileDecoderKinds, List.mem_cons, List.not_mem_nil, or_false, not_or] at hk
      obtain ⟨k1, k2, k3, k4, k5, k6, k7, k8⟩ := hk
      simp [api.Factor.UnmarshalJSON, hp, k1, k2, k3, k4, k5, k6, k7, k8]

/-- C6 witness: an SMS entry with a phone-number payload decodes to
exactly the SMS profile variant. -/
theorem C6_profile_dispatch_by_kind_witness :
    (api.Factor.UnmarshalJSON c6smsHelper).Profile =
      some (.sms (api.decodeProfileSMS { phoneNumber := some "+1 XXX-XXX-5555" })) :=
  ((C6_profile_dispatch_by_kind c6smsHelper).2.2
    { phoneNumber := some "+1 XXX-XXX-5555" } rfl).2.1 rfl

theorem charListLt_asymm :
    ∀ x y : List Char, docmodel.charListLt x y = true → docmodel.charListLt y x = true → False := by
  intro x
  induction x with
  | nil =>
    intro y h1 h2
    cases y <;> simp [docmodel.charListLt] at h1 h2
  | cons a as ih =>
    intro y h1 h2
    cases y with
    | nil => simp [docmodel.charListLt] at h1
    | cons b bs =>
      simp only [docmodel.charListLt] at h1 h2
      split_ifs at h1 h2 <;>
        first
          | omega
          | exact ih bs h1 h2
          | simp_all

theorem charListLt_trans_neg :
    ∀ x y z : List Char, docmodel.charListLt y x = false → docmodel.charListLt z y = false →
      docmodel.charListLt z x = false := by
  intro x
  induction x with
  | nil =>
    intro y z h1 h2
    cases z <;> simp [docmodel.charListLt]
  | cons a as ih =>
    intro y z h1 h2
    cases y with
    | nil => simp [docmodel.charListLt] at h1
    | cons b bs =>
      cases z with
      | nil => simp [docmodel.charListLt] at h2
      | cons c cs =>
        simp only [docmodel.charListLt] at h1 h2 ⊢
        split_ifs at h1 h2 ⊢ <;>
          first
            | rfl
            | omega
            | exact ih bs cs h1 h2
            | simp_all

theorem stringLtGo_asymm (s t : String) :
    docmodel.stringLtGo s t = true → docmodel.stringLtGo t s = true → False :=
  charListLt_asymm s.data t.data

theorem stringLtGo_trans_neg (x y z : String) :
    docmodel.stringLtGo y x = false → docmodel.stringLtGo z y = false →
    docmodel.stringLtGo z x = false :=
  charListLt_trans_neg x.data y.data z.data

/-- Two factors are never each Less than the other. -/
theorem docLess_asymm (a b : docmodel.Factor) :
    docmodel.Factor.less a b = true → docmodel.Factor.less b a = true → False := by
  intro h1 h2
  simp only [docmodel.Factor.less] at h1 h2
  split_ifs at h1 h2 <;>
    first
      | exact stringLtGo_asymm _ _ h1 h2
      | (exfalso; simp only [bne_iff_ne, beq_iff_eq, decide_eq_true_eq,
          decide_eq_false_iff_not, not_not, ne_eq] at *; omega)
      | simp at h1
      | simp at h2

/-- Not-Less is transitive (Less is a strict weak order). -/
theorem docLess_le_trans (a b c : docmodel.Factor) :
    docmodel.Factor.less b a = false → docmodel.Factor.less c b = false →
    docmodel.Factor.less c a = false := by
  intro h1 h2
  simp only [docmodel.Factor.less] at h1 h2 ⊢
  split_ifs at h1 h2 ⊢ <;>
    first
      | rfl
      | exact stringLtGo_trans_neg _ _ _ h1 h2
      | (simp only [bne_iff_ne, beq_iff_eq, decide_eq_true_eq,
          decide_eq_false_iff_not, not_not, ne_eq] at *; omega)
      | (exfalso; simp only [bne_iff_ne, beq_iff_eq, decide_eq_true_eq,
          decide_eq_false_iff_not, not_not, ne_eq] at *; omega)
      | simp at h1
      | simp at h2

theorem mem_insertSorted (x a : docmodel.Factor) (l : docmodel.Factors) :
    x ∈ docmodel.insertSorted a l ↔ x = a ∨ x ∈ l := by
  induction l with
  | nil => simp [docmodel.insertSorted]
  | cons b rest ih =>
    simp only [docmodel.insertSorted]
    split
    · simp only [List.mem_cons, ih]
      try tauto
    · simp only [List.mem_cons]
      try tauto

theorem pairwise_insertSorted (a : docmodel.Factor) (l : docmodel.Factors)
    (hl : l.Pairwise (fun x y => docmodel.Factor.less y x = false)) :
    (docmodel.insertSorted a l).Pairwise (fun x y => docmodel.Factor.less y x = false) := by
  induction l with
  | nil => simp [docmodel.insertSorted]
  | cons b rest ih =>
    rcases List.pairwise_cons.mp hl with ⟨hb, hrest⟩
    simp only [docmodel.insertSorted]
    split
    case isTrue hba =>
      refine List.pairwise_cons.mpr ⟨?_, ih hrest⟩
      intro y hy
      rcases (mem_insertSorted y a rest).mp hy with rfl | hyr
      · cases hab : docmodel.Factor.less y b with
        | false => rfl
        | true => exact absurd (docLess_asymm b y hba hab) id
      · exact hb y hyr
    case isFalse hba =>
      have hba' : docmodel.Factor.less b a = false := by
        cases hv : docmodel.Factor.less b a with
        | false => rfl
        | true => exact absurd hv hba
      refine List.pairwise_cons.mpr ⟨?_, hl⟩
      intro y hy
      rcases List.mem_cons.mp hy with rfl | hyr
      · exact hba'
      · exact docLess_le_trans a b y hba' (hb y hyr)

theorem insertSorted_perm (a : docmodel.Factor) (l : docmodel.Factors) :
    (docmodel.insertSorted a l).Perm (a :: l) := by
  induction l with
  | nil => exact List.Perm.refl _
  | cons b rest ih =>
    simp only [docmodel.insertSorted]
    split
    · exact (ih.cons b).trans (List.Perm.swap a b rest)
    · exact List.Perm.refl _

theorem sortFactors_pairwise (l : docmodel.Factors) :
    (docmodel.sortFactors l).Pairwise (fun x y => docmodel.Factor.less y x = false) := by
  induction l with
  | nil => simp [docmodel.sortFactors]
  | cons a rest ih => exact pairwise_insertSorted a _ ih

theorem sortFactors_perm (l : docmodel.Factors) :
    (docmodel.sortFactors l).Perm l := by
  induction l with
  | nil => exact List.Perm.refl _
  | cons a rest ih => exact (insertSorted_perm a _).trans (ih.cons a)

/-- C7: refuted as stated.  Two factors of unrecognized kinds compare by
strings.Compare on the kind name, so sorting ["unknown2", "unknown1"]
yields ["unknown1", "unknown2"], which does not preserve their original
relative order.  (The repository's own TestFactorSorting expects exactly
this lexicographic output.) -/
theorem C7_unknown_kinds_sorted_lexicographically :
    docmodel.sortFactors [c7unknown2, c7unknown1] = [c7unknown1, c7unknown2] ∧
    [c7unknown1, c7unknown2] ≠ [c7unknown2, c7unknown1] := by decide

/-- C7 (amended): sorting by the preference order permutes the list so
that no factor is Less than an earlier one, where Less ranks u2f before
token, token before push, push before SMS, SMS before call, call before
question, every known kind before every unrecognized kind, and orders two
unrecognized kinds by strict lexicographic comparison of the kind string
(not by original position). -/
theorem C7_preference_order_sorting (l : docmodel.Factors) :
    (docmodel.sortFactors l).Perm l ∧
    (docmodel.sortFactors l).Pairwise (fun x y => docmodel.Factor.less y x = false) ∧
    (∀ a b : docmodel.Factor,
      (a.FactorType = docmodel.FactorTypeU2F ∧ b.FactorType = docmodel.FactorTypeToken) ∨
      (a.FactorType = docmodel.FactorTypeToken ∧ b.FactorType = docmodel.FactorTypePush) ∨
      (a.FactorType = docmodel.FactorTypePush ∧ b.FactorType = docmodel.FactorTypeSMS) ∨
      (a.FactorType = docmodel.FactorTypeSMS ∧ b.FactorType = docmodel.FactorTypeCall) ∨
      (a.FactorType = docmodel.FactorTypeCall ∧ b.FactorType = docmodel.FactorTypeQuestion) →
      docmodel.Factor.less a b = true ∧ docmodel.Factor.less b a = false) ∧
    (∀ a b : docmodel.Factor, docmodel.indexOfFactorType a.FactorType ≠ -1 →
      docmodel.indexOfFactorType b.FactorType = -1 →
      docmodel.Factor.less a b = true ∧ docmodel.Factor.less b a = false) ∧
    (∀ a b : docmodel.Factor, docmodel.indexOfFactorType a.FactorType = -1 →
      docmodel.indexOfFactorType b.FactorType = -1 →
      docmodel.Factor.less a b = docmodel.stringLtGo a.FactorType b.FactorType) := by
  refine ⟨sortFactors_perm l, sortFactors_pairwise l, ?_, ?_, ?_⟩
  · intro a b h
    rcases h with ⟨ha, hb⟩ | ⟨ha, hb⟩ | ⟨ha, hb⟩ | ⟨ha, hb⟩ | ⟨ha, hb⟩ <;>
      · simp only [docmodel.Factor.less, ha, hb]
        decide
  · intro a b ha hb
    constructor <;> simp [docmodel.Factor.less, ha, hb, bne_iff_ne]
  · intro a b ha hb
    simp [docmodel.Factor.less, ha, hb, bne_iff_ne]

/-- C7 witness: at the hardware-key/token pair, the ranking orders u2f
strictly before token. -/
theorem C7_preference_order_sorting_witness :
    docmodel.Factor.less c7u2f c7token = true ∧
    docmodel.Factor.less c7token c7u2f = false :=
  (C7_preference_order_sorting []).2.2.1 c7u2f c7token (Or.inl ⟨rfl, rfl⟩)

theorem sendTransactionRequest_script (g : Nat → api.AuthenticationTransaction)
    (n : Nat) (url : String) (req : Request) :
    sendTransactionRequest (scriptClient g) n url req =
      (scriptPostTrace url req, n + 1, g n, none, none) := by
  simp [sendTransactionRequest, sendRequest, scriptClient, scriptBody, scriptPostTrace]

theorem postEvents_append (a b : List Event) :
    postEvents (a ++ b) = postEvents a ++ postEvents b := by
  simp [postEvents]

theorem sleepEvents_append (a b : List Event) :
    sleepEvents (a ++ b) = sleepEvents a ++ sleepEvents b := by
  simp [sleepEvents]

theorem postEvents_scriptPostTrace (url : String) (req : Request) :
    postEvents (scriptPostTrace url req) = [(url, req)] := rfl

theorem sleepEvents_scriptPostTrace (url : String) (req : Request) :
    sleepEvents (scriptPostTrace url req) = [] := rfl

theorem postEvents_sleep_cons (k : Nat) (l : List Event) :
    postEvents (Event.sleepSeconds k :: l) = postEvents l := rfl

theorem postEvents_println_cons (s : String) (l : List Event) :
    postEvents (Event.println s :: l) = postEvents l := rfl

theorem postEvents_promptPush_cons (l : List Event) :
    postEvents (Event.promptVerifyPush :: l) = postEvents l := rfl

theorem sleepEvents_sleep_cons (k : Nat) (l : List Event) :
    sleepEvents (Event.sleepSeconds k :: l) = k :: sleepEvents l := rfl

theorem sleepEvents_println_cons (s : String) (l : List Event) :
    sleepEvents (Event.println s :: l) = sleepEvents l := rfl

theorem sleepEvents_promptPush_cons (l : List Event) :
    sleepEvents (Event.promptVerifyPush :: l) = sleepEvents l := rfl

theorem postEvents_transientPollTrace (url : String) (req : Request) (r : Nat) :
    postEvents (transientPollTrace url req r) = List.replicate (r + 1) (url, req) := by
  induction r with
  | zero => rfl
  | succ r ih =>
    rw [transientPollTrace, postEvents_append, postEvents_scriptPostTrace,
      postEvents_sleep_cons, ih]
    simp [List.replicate_succ]

theorem sleepEvents_transientPollTrace (url : String) (req : Request) (r : Nat) :
    sleepEvents (transientPollTrace url req r) = List.replicate r 3 := by
  induction r with
  | zero => rfl
  | succ r ih =>
    rw [transientPollTrace, sleepEvents_append, sleepEvents_scriptPostTrace,
      sleepEvents_sleep_cons, ih]
    simp [List.replicate_succ]

theorem postEvents_rejectedPollTrace (url : String) (req : Request) (j : Nat) :
    postEvents (rejectedPollTrace url req j) = List.replicate (j + 1) (url, req) := by
  induction j with
  | zero => rfl
  | succ j ih =>
    rw [rejectedPollTrace, postEvents_append, postEvents_scriptPostTrace,
      postEvents_sleep_cons, ih]
    simp [List.replicate_succ]

theorem sleepEvents_rejectedPollTrace (url : String) (req : Request) (j : Nat) :
    sleepEvents (rejectedPollTrace url req j) = List.replicate j 3 := by
  induction j with
  | zero => rfl
  | succ j ih =>
    rw [rejectedPollTrace, sleepEvents_append, sleepEvents_scriptPostTrace,
      sleepEvents_sleep_cons, ih]
    simp [List.replicate_succ]

/-- The backoff loop under an all-transient script: after the initial
attempt it consumes every one of its r retries and returns the non-fatal
timeout error, having POSTed r+1 times. -/
theorem pushPollLoop_transient (g : Nat → api.AuthenticationTransaction)
    (url : String) (req : Request) :
    ∀ (r n : Nat),
      (∀ k, n ≤ k → k ≤ n + r → (g k).Status ≠ api.StateSuccess ∧
          (g k).FactorResult ≠ api.FactorResultRejected) →
      pushPollLoop (scriptClient g) url req r n =
        (transientPollTrace url req r, n + r + 1, g (n + r),
         some (.nonFatal timeoutErrorMessage)) := by
  intro r
  induction r with
  | zero =>
    intro n h
    have h0 := h n (le_refl n) (by omega)
    have hS : ((g n).Status == api.StateSuccess) = false := beq_eq_false_iff_ne.mpr h0.1
    have hR : ((g n).FactorResult == api.FactorResultRejected) = false :=
      beq_eq_false_iff_ne.mpr h0.2
    simp [pushPollLoop, sendTransactionRequest_script, hS, hR, transientPollTrace]
  | succ r ih =>
    intro n h
    have h0 := h n (le_refl n) (by omega)
    have hS : ((g n).Status == api.StateSuccess) = false := beq_eq_false_iff_ne.mpr h0.1
    have hR : ((g n).FactorResult == api.FactorResultRejected) = false :=
      beq_eq_false_iff_ne.mpr h0.2
    have ih' := ih (n + 1) (fun k hk1 hk2 => h k (by omega) (by omega))
    have e1 : n + 1 + r = n + (r + 1) := by omega
    rw [e1] at ih'
    simp [pushPollLoop, sendTransactionRequest_script, hS, hR, ih', transientPollTrace]

/-- The backoff loop when polls n..n+j-1 are transient and poll n+j is
REJECTED (j within the retry budget): polling stops at the rejection with
backoff.Permanent, returning the non-fatal rejection error after exactly
j+1 POSTs. -/
theorem pushPollLoop_rejected (g : Nat → api.AuthenticationTransaction)
    (url : String) (req : Request) :
    ∀ (j r n : Nat), j ≤ r →
      (∀ k, n ≤ k → k < n + j → (g k).Status ≠ api.StateSuccess ∧
          (g k).FactorResult ≠ api.FactorResultRejected) →
      (g (n + j)).Status ≠ api.StateSuccess →
      (g (n + j)).FactorResult = api.FactorResultRejected →
      pushPollLoop (scriptClient g) url req r n =
        (rejectedPollTrace url req j, n + j + 1, g (n + j),
         some (.nonFatal "Authentication Rejected")) := by
  intro j
  induction j with
  | zero =>
    intro r n _ _ hS hR
    have hS' : ((g n).Status == api.StateSuccess) = false :=
      beq_eq_false_iff_ne.mpr (by simpa using hS)
    have hR' : ((g n).FactorResult == api.FactorResultRejected) = true :=
      beq_iff_eq.mpr (by simpa using hR)
    cases r with
    | zero => simp [pushPollLoop, sendTransactionRequest_script, hS', hR', rejectedPollTrace]
    | succ r' => simp [pushPollLoop, sendTransactionRequest_script, hS', hR', rejectedPollTrace]
  | succ j ih =>
    intro r n hjr h hS hR
    cases r with
    | zero => omega
    | succ r' =>
      have h0 := h n (le_refl n) (by omega)
      have hS0 : ((g n).Status == api.StateSuccess) = false := beq_eq_false_iff_ne.mpr h0.1
      have hR0 : ((g n).FactorResult == api.FactorResultRejected) = false :=
        beq_eq_false_iff_ne.mpr h0.2
      have e1 : n + 1 + j = n + (j + 1) := by omega
      have hS2 : (g (n + 1 + j)).Status ≠ api.StateSuccess := by rw [e1]; exact hS
      have hR2 : (g (n + 1 + j)).FactorResult = api.FactorResultRejected := by rw [e1]; exact hR
      have ih' := ih r' (n + 1) (by omega) (fun k hk1 hk2 => h k (by omega) (by omega)) hS2 hR2
      rw [e1] at ih'
      simp [pushPollLoop, sendTransactionRequest_script, hS0, hR0, ih', rejectedPollTrace]

/-- C2: refuted as stated.  With an always-WAITING transport the poller
performs 11 poll POSTs, not 10: backoff.WithMaxRetries(ConstantBackOff(3s), 10)
allows the initial attempt plus 10 retries.  The cancel POST and the
non-fatal timeout error are as claimed (10 sleeps of 3 seconds ≈ the 30s
bound). -/
theorem C2_ten_attempts_refuted :
    postEvents c2run.trace =
      List.replicate 12 ("https://test.okta.com/next", pushR) ++
        [("https://test.okta.com/cancel", pushR)] ∧
    (postEvents c2run.trace).length = 13 ∧
    sleepEvents c2run.trace = List.replicate 10 3 ∧
    c2run.out = .failure (.nonFatal timeoutErrorMessage) ∧
    (13 : Nat) ≠ 1 + 10 + 1 := by
  refine ⟨by rfl, by rfl, by rfl, by rfl, by omega⟩

/-- C2 (amended): under MFAChallenge with the push factor, if every poll
POST returns a transaction that is neither Success nor Rejected, the
poller performs exactly 11 poll attempts — the initial attempt plus the
10 retries of the constant 3-second backoff policy — sleeping 3 seconds
between consecutive attempts (10 sleeps, ≈30s), then issues exactly one
POST to the cancel link of the last polled transaction and returns the
non-fatal timeout error rather than a session token. -/
theorem C2_push_timeout_eleven_attempts (g : Nat → api.AuthenticationTransaction)
    (recur : Recur) (t0 : api.AuthenticationTransaction)
    (hg : ∀ k, 1 ≤ k → k ≤ 11 → (g k).Status ≠ api.StateSuccess ∧
        (g k).FactorResult ≠ api.FactorResultRejected) :
    (handleFactorTypePush (scriptClient g) recur 0 t0).trace =
      scriptPostTrace t0.Links.Next.HREF (.verifyPush ⟨⟨t0.StateToken⟩⟩) ++
        Event.promptVerifyPush ::
          (transientPollTrace (g 0).Links.Next.HREF (.verifyPush ⟨⟨t0.StateToken⟩⟩) 10 ++
            Event.println "Authentication Timed Out - please reject the current Okta Auth Request on your phone then try again" ::
              scriptPostTrace (g 11).Links.Cancel.HREF (.verifyPush ⟨⟨t0.StateToken⟩⟩)) ∧
    postEvents (handleFactorTypePush (scriptClient g) recur 0 t0).trace =
      (t0.Links.Next.HREF, Request.verifyPush ⟨⟨t0.StateToken⟩⟩) ::
        (List.replicate 11 ((g 0).Links.Next.HREF, Request.verifyPush ⟨⟨t0.StateToken⟩⟩) ++
          [((g 11).Links.Cancel.HREF, Request.verifyPush ⟨⟨t0.StateToken⟩⟩)]) ∧
    sleepEvents (handleFactorTypePush (scriptClient g) recur 0 t0).trace =
      List.replicate 10 3 ∧
    (handleFactorTypePush (scriptClient g) recur 0 t0).out =
      .failure (.nonFatal timeoutErrorMessage) := by
  have hpoll := pushPollLoop_transient g (g 0).Links.Next.HREF
      (.verifyPush ⟨⟨t0.StateToken⟩⟩) 10 1 (fun k hk1 hk2 => hg k hk1 (by omega))
  have htrace :
      (handleFactorTypePush (scriptClient g) recur 0 t0).trace =
        scriptPostTrace t0.Links.Next.HREF (.verifyPush ⟨⟨t0.StateToken⟩⟩) ++
          Event.promptVerifyPush ::
            (transientPollTrace (g 0).Links.Next.HREF (.verifyPush ⟨⟨t0.StateToken⟩⟩) 10 ++
              Event.println "Authentication Timed Out - please reject the current Okta Auth Request on your phone then try again" ::
                scriptPostTrace (g 11).Links.Cancel.HREF (.verifyPush ⟨⟨t0.StateToken⟩⟩)) := by
    simp [handleFactorTypePush, sendTransactionRequest_script, hpoll, timeoutErrorMessage]
  have hout : (handleFactorTypePush (scriptClient g) recur 0 t0).out =
      .failure (.nonFatal timeoutErrorMessage) := by
    simp [handleFactorTypePush, sendTransactionRequest_script, hpoll, timeoutErrorMessage]
  refine ⟨htrace, ?_, ?_, hout⟩
  · rw [htrace, postEvents_append, postEvents_scriptPostTrace, postEvents_promptPush_cons,
      postEvents_append, postEvents_transientPollTrace, postEvents_println_cons,
      postEvents_scriptPostTrace]
    simp
  · rw [htrace, sleepEvents_append, sleepEvents_scriptPostTrace, sleepEvents_promptPush_cons,
      sleepEvents_append, sleepEvents_transientPollTrace, sleepEvents_println_cons,
      sleepEvents_scriptPostTrace]
    simp

/-- C2 witness: the always-WAITING script at the concrete push
transaction. -/
theorem C2_push_timeout_eleven_attempts_witness :
    postEvents (handleFactorTypePush (scriptClient c2g) stopRecur 0 c2wait).trace =
      ("https://test.okta.com/next", pushR) ::
        (List.replicate 11 ("https://test.okta.com/next", pushR) ++
          [("https://test.okta.com/cancel", pushR)]) ∧
    (handleFactorTypePush (scriptClient c2g) stopRecur 0 c2wait).out =
      .failure (.nonFatal timeoutErrorMessage) := by
  have h := C2_push_timeout_eleven_attempts c2g stopRecur c2wait
      (fun k _ _ => ⟨by simp [c2g, c2wait, api.StateMFAChallenge, api.StateSuccess],
        by simp [c2g, c2wait, api.FactorResultWaiting, api.FactorResultRejected]⟩)
  exact ⟨h.2.1, h.2.2.2⟩

/-- C5: for the push factor a REJECTED poll stops polling immediately via
backoff.Permanent — after transient polls 1..j and a rejection on poll
j+1 there are exactly j+1 poll POSTs (no further retries), then exactly
one POST to the cancel link, and the distinguished non-fatal
"Authentication Rejected" error is returned with no session token. -/
theorem C5_push_rejected_stops_polling (g : Nat → api.AuthenticationTransaction)
    (recur : Recur) (t0 : api.AuthenticationTransaction) (j : Nat) (hj : j ≤ 10)
    (htr : ∀ k, 1 ≤ k → k < 1 + j → (g k).Status ≠ api.StateSuccess ∧
        (g k).FactorResult ≠ api.FactorResultRejected)
    (hS : (g (1 + j)).Status ≠ api.StateSuccess)
    (hR : (g (1 + j)).FactorResult = api.FactorResultRejected) :
    (handleFactorTypePush (scriptClient g) recur 0 t0).trace =
      scriptPostTrace t0.Links.Next.HREF (.verifyPush ⟨⟨t0.StateToken⟩⟩) ++
        Event.promptVerifyPush ::
          (rejectedPollTrace (g 0).Links.Next.HREF (.verifyPush ⟨⟨t0.StateToken⟩⟩) j ++
            scriptPostTrace (g (1 + j)).Links.Cancel.HREF (.verifyPush ⟨⟨t0.StateToken⟩⟩)) ∧
    postEvents (handleFactorTypePush (scriptClient g) recur 0 t0).trace =
      (t0.Links.Next.HREF, Request.verifyPush ⟨⟨t0.StateToken⟩⟩) ::
        (List.replicate (j + 1) ((g 0).Links.Next.HREF, Request.verifyPush ⟨⟨t0.StateToken⟩⟩) ++
          [((g (1 + j)).Links.Cancel.HREF, Request.verifyPush ⟨⟨t0.StateToken⟩⟩)]) ∧
    sleepEvents (handleFactorTypePush (scriptClient g) recur 0 t0).trace =
      List.replicate j 3 ∧
    (handleFactorTypePush (scriptClient g) recur 0 t0).out =
      .failure (.nonFatal "Authentication Rejected") := by
  have hpoll := pushPollLoop_rejected g (g 0).Links.Next.HREF
      (.verifyPush ⟨⟨t0.StateToken⟩⟩) j 10 1 hj
      (fun k hk1 hk2 => htr k hk1 (by omega)) hS hR
  have hne : ("Authentication Rejected" == timeoutErrorMessage) = false := by decide
  have htrace :
      (handleFactorTypePush (scriptClient g) recur 0 t0).trace =
        scriptPostTrace t0.Links.Next.HREF (.verifyPush ⟨⟨t0.StateToken⟩⟩) ++
          Event.promptVerifyPush ::
            (rejectedPollTrace (g 0).Links.Next.HREF (.verifyPush ⟨⟨t0.StateToken⟩⟩) j ++
              scriptPostTrace (g (1 + j)).Links.Cancel.HREF (.verifyPush ⟨⟨t0.StateToken⟩⟩)) := by
    simp [handleFactorTypePush, sendTransactionRequest_script, hpoll, hne]
  have hout : (handleFactorTypePush (scriptClient g) recur 0 t0).out =
      .failure (.nonFatal "Authentication Rejected") := by
    simp [handleFactorTypePush, sendTransactionRequest_script, hpoll, hne]
  refine ⟨htrace, ?_, ?_, hout⟩
  · rw [htrace, postEvents_append, postEvents_scriptPostTrace, postEvents_promptPush_cons,
      postEvents_append, postEvents_rejectedPollTrace, postEvents_scriptPostTrace]
    simp
  · rw [htrace, sleepEvents_append, sleepEvents_scriptPostTrace, sleepEvents_promptPush_cons,
      sleepEvents_append, sleepEvents_rejectedPollTrace, sleepEvents_scriptPostTrace]
    simp

/-- C5 witness: WAITING twice then REJECTED gives exactly three poll
POSTs, one cancel POST, and the rejected non-fatal error. -/
theorem C5_push_rejected_stops_polling_witness :
    postEvents (handleFactorTypePush (scriptClient c5g) stopRecur 0 c2wait).trace =
      ("https://test.okta.com/next", pushR) ::
        (List.replicate 3 ("https://test.okta.com/next", pushR) ++
          [("https://test.okta.com/cancel", pushR)]) ∧
    (handleFactorTypePush (scriptClient c5g) stopRecur 0 c2wait).out =
      .failure (.nonFatal "Authentication Rejected") := by
  have h := C5_push_rejected_stops_polling c5g stopRecur c2wait 2 (by omega)
      (fun k hk1 hk2 => by
        have hk : k ≤ 2 := by omega
        refine ⟨?_, ?_⟩
        · simp [c5g, hk, c2wait, api.StateMFAChallenge, api.StateSuccess]
        · simp [c5g, hk, c2wait, api.FactorResultWaiting, api.FactorResultRejected])
      (by decide) (by decide)
  exact ⟨h.2.1, h.2.2.2⟩

/-- Every call of sendTransactionRequest performs exactly one POST, with
the given url and serialized request. -/
theorem postEvents_sendTransactionRequest (c : Client) (n : Nat) (url : String) (req : Request) :
    postEvents (sendTransactionRequest c n url req).1 = [(url, req)] := by
  unfold sendTransactionRequest
  rcases htr : c.transport n url req with msg | ⟨status, body⟩
  · simp only [sendRequest, htr]
    split <;> simp [postEvents]
  · simp only [sendRequest, htr]
    split_ifs <;> (try split) <;> simp [postEvents]

/-- C4: refuted as stated.  A hardware-token factor (kind
"token:hardware") is not routed to the numeric-code handler: the
MFAChallenge dispatch sends it to the default branch, which asks for no
code and cancels the factor with "Sorry, that factor is not supported
yet.". -/
theorem C4_hardware_token_gets_no_code_prompt :
    (handleMFAChallenge (scriptClient c2g) stopRecur 0 c4txn).trace.countP isPromptVerifyCode = 0 ∧
    Event.presentUserError "Sorry, that factor is not supported yet." ∈
      (handleMFAChallenge (scriptClient c2g) stopRecur 0 c4txn).trace ∧
    c4txn.Embedded.Factor.FactorType = factors.FactorTypeTokenHardware := by decide

/-- C4 (amended): for the kinds the challenge dispatcher routes to the
numeric-code handler — software token (token:software:totp), SMS and call
(hardware tokens go to the unsupported-factor branch instead) — the
driver first requests a code from the collaborator; a collaborator error
cancels the factor with the generic "Cancelled" message; on a code the
first POST is to the next link with a body carrying exactly the state
token and the pass code; an API-level rejection of that POST cancels
the factor with the server's error summary. -/
theorem C4_numeric_code_kinds (c : Client) (recur : Recur) (n : Nat)
    (transaction : api.AuthenticationTransaction)
    (hk : transaction.Embedded.Factor.FactorType = factors.FactorTypeTokenSoftwareTOTP ∨
          transaction.Embedded.Factor.FactorType = factors.FactorTypeSMS ∨
          transaction.Embedded.Factor.FactorType = factors.FactorTypeCall) :
    handleMFAChallenge c recur n transaction = handleFactorTypeCode c recur n transaction ∧
    (∃ rest, (handleFactorTypeCode c recur n transaction).trace =
      Event.promptVerifyCode (apiFactorToPublicFactor transaction.Embedded.Factor) :: rest) ∧
    (∀ emsg, c.verifyCode (apiFactorToPublicFactor transaction.Embedded.Factor) = .error emsg →
      handleFactorTypeCode c recur n transaction =
        ⟨Event.promptVerifyCode (apiFactorToPublicFactor transaction.Embedded.Factor) ::
           (cancelCurrentFactorWithErrorMessage c recur n transaction "Cancelled").trace,
         (cancelCurrentFactorWithErrorMessage c recur n transaction "Cancelled").next,
         (cancelCurrentFactorWithErrorMessage c recur n transaction "Cancelled").out⟩) ∧
    (∀ code, c.verifyCode (apiFactorToPublicFactor transaction.Embedded.Factor) = .ok code →
      (postEvents (handleFactorTypeCode c recur n transaction).trace).head? =
        some (transaction.Links.Next.HREF,
              Request.verifyCode ⟨⟨transaction.StateToken⟩, code⟩)) ∧
    (∀ code status body e,
      c.verifyCode (apiFactorToPublicFactor transaction.Embedded.Factor) = .ok code →
      c.transport n transaction.Links.Next.HREF
          (Request.verifyCode ⟨⟨transaction.StateToken⟩, code⟩) = .response status body →
      400 ≤ status → status < 500 → status ≠ 429 → body.asAPIError = some e →
      (∃ pre, (handleFactorTypeCode c recur n transaction).trace =
         Event.promptVerifyCode (apiFactorToPublicFactor transaction.Embedded.Factor) ::
           (pre ++ (cancelCurrentFactorWithErrorMessage c recur (n + 1) transaction
              e.ErrorSummary).trace) ∧
         postEvents pre = [(transaction.Links.Next.HREF,
                            Request.verifyCode ⟨⟨transaction.StateToken⟩, code⟩)]) ∧
      (handleFactorTypeCode c recur n transaction).out =
        (cancelCurrentFactorWithErrorMessage c recur (n + 1) transaction e.ErrorSummary).out) := by
  refine ⟨?_, ?_, ?_, ?_, ?_⟩
  · rcases hk with hk | hk | hk <;>
      simp [handleMFAChallenge, hk, factors.FactorTypeTokenSoftwareTOTP, factors.FactorTypeSMS,
        factors.FactorTypeCall, factors.FactorTypeU2F]
  · rcases hvc : c.verifyCode (apiFactorToPublicFactor transaction.Embedded.Factor) with emsg | code
    · refine ⟨(cancelCurrentFactorWithErrorMessage c recur n transaction "Cancelled").trace, ?_⟩
      simp [handleFactorTypeCode, hvc]
    · rcases hs : sendTransactionRequest c n transaction.Links.Next.HREF
          (Request.verifyCode ⟨⟨transaction.StateToken⟩, code⟩) with ⟨evs, n', t', ae, err⟩
      rcases err with _ | e'
      · rcases ae with _ | e2
        · refine ⟨evs ++ (recur n' t' false).trace, ?_⟩
          simp [handleFactorTypeCode, hvc, hs]
        · refine ⟨evs ++ (cancelCurrentFactorWithErrorMessage c recur n' transaction
              e2.ErrorSummary).trace, ?_⟩
          simp [handleFactorTypeCode, hvc, hs]
      · refine ⟨evs, ?_⟩
        simp [handleFactorTypeCode, hvc, hs]
  · intro emsg hvc
    simp [handleFactorTypeCode, hvc]
  · intro code hvc
    have hpost := postEvents_sendTransactionRequest c n transaction.Links.Next.HREF
        (Request.verifyCode ⟨⟨transaction.StateToken⟩, code⟩)
    rcases hs : sendTransactionRequest c n transaction.Links.Next.HREF
        (Request.verifyCode ⟨⟨transaction.StateToken⟩, code⟩) with ⟨evs, n', t', ae, err⟩
    have hpost' : postEvents evs =
        [(transaction.Links.Next.HREF,
          Request.verifyCode ⟨⟨transaction.StateToken⟩, code⟩)] := by
      rw [hs] at hpost
      exact hpost
    rcases err with _ | e'
    · rcases ae with _ | e2
      · have ht : (handleFactorTypeCode c recur n transaction).trace =
            Event.promptVerifyCode (apiFactorToPublicFactor transaction.Embedded.Factor) ::
              (evs ++ (recur n' t' false).trace) := by
          simp [handleFactorTypeCode, hvc, hs]
        rw [ht, show postEvents (Event.promptVerifyCode
            (apiFactorToPublicFactor transaction.Embedded.Factor) ::
            (evs ++ (recur n' t' false).trace)) =
            postEvents (evs ++ (recur n' t' false).trace) from rfl,
          postEvents_append, hpost']
        rfl
      · have ht : (handleFactorTypeCode c recur n transaction).trace =
            Event.promptVerifyCode (apiFactorToPublicFactor transaction.Embedded.Factor) ::
              (evs ++ (cancelCurrentFactorWithErrorMessage c recur n' transaction
                e2.ErrorSummary).trace) := by
          simp [handleFactorTypeCode, hvc, hs]
        rw [ht, show postEvents (Event.promptVerifyCode
            (apiFactorToPublicFactor transaction.Embedded.Factor) ::
            (evs ++ (cancelCurrentFactorWithErrorMessage c recur n' transaction
              e2.ErrorSummary).trace)) =
            postEvents (evs ++ (cancelCurrentFactorWithErrorMessage c recur n' transaction
              e2.ErrorSummary).trace) from rfl,
          postEvents_append, hpost']
        rfl
    · have ht : (handleFactorTypeCode c recur n transaction).trace =
          Event.promptVerifyCode (apiFactorToPublicFactor transaction.Embedded.Factor) :: evs := by
        simp [handleFactorTypeCode, hvc, hs]
      rw [ht, show postEvents (Event.promptVerifyCode
          (apiFactorToPublicFactor transaction.Embedded.Factor) :: evs) =
          postEvents evs from rfl, hpost']
      rfl
  · intro code status body e hvc htr h4 h5 h9 hbody
    have hb200 : (status == 200) = false := beq_eq_false_iff_ne.mpr (by omega)
    have hb429 : (status == 429) = false := beq_eq_false_iff_ne.mpr h9
    have hsend : sendTransactionRequest c n transaction.Links.Next.HREF
        (Request.verifyCode ⟨⟨transaction.StateToken⟩, code⟩) =
        ((sendRequest c n transaction.Links.Next.HREF
            (Request.verifyCode ⟨⟨transaction.StateToken⟩, code⟩)).1,
         n + 1, {}, some e, none) := by
      unfold sendTransactionRequest
      simp only [sendRequest, htr]
      simp [hb200, hb429, if_pos (And.intro h4 h5), hbody]
    have hpost := postEvents_sendTransactionRequest c n transaction.Links.Next.HREF
        (Request.verifyCode ⟨⟨transaction.StateToken⟩, code⟩)
    rw [hsend] at hpost
    constructor
    · refine ⟨(sendRequest c n transaction.Links.Next.HREF
          (Request.verifyCode ⟨⟨transaction.StateToken⟩, code⟩)).1, ?_, hpost⟩
      simp [handleFactorTypeCode, hvc, hsend]
    · simp [handleFactorTypeCode, hvc, hsend]

/-- C4 witness: an SMS challenge with a scripted transport — the dispatch
routes to the code handler and the first POST carries exactly the state
token and pass code. -/
theorem C4_numeric_code_kinds_witness :
    handleMFAChallenge (scriptClient c2g) stopRecur 0 c4smsTxn =
      handleFactorTypeCode (scriptClient c2g) stopRecur 0 c4smsTxn ∧
    (postEvents (handleFactorTypeCode (scriptClient c2g) stopRecur 0 c4smsTxn).trace).head? =
      some ("https://test.okta.com/next", Request.verifyCode ⟨⟨"st"⟩, ""⟩) := by
  have h := C4_numeric_code_kinds (scriptClient c2g) stopRecur 0 c4smsTxn (Or.inr (Or.inl rfl))
  exact ⟨h.1, h.2.2.2.1 "" rfl⟩

/-- C9: when the POST to the chosen factor's verify link comes back as a
structured API rejection, startMFA surfaces the message through
PresentUserError and still continues by re-entering the dispatcher on the
transaction value sendTransactionRequest returned (with the auto-select
flag false), rather than returning the rejection as an error. -/
theorem C9_startMFA_api_rejection_continues (c : Client) (recur : Recur) (n : Nat)
    (transaction : api.AuthenticationTransaction) (factor : api.Factor)
    (status : Nat) (body : Body) (e : api.APIError)
    (htr : c.transport n factor.Links.Verify.HREF
        (.verify ⟨transaction.StateToken⟩) = .response status body)
    (h4 : 400 ≤ status) (h5 : status < 500) (h9 : status ≠ 429)
    (hbody : body.asAPIError = some e) :
    (∃ pre, (startMFA c recur n transaction factor).trace =
       pre ++ Event.presentUserError
           ("Got error trying to use MFA " ++ factor.FactorType ++ ": " ++ e.ErrorSummary) ::
         (recur (n + 1) ({} : api.AuthenticationTransaction) false).trace ∧
       postEvents pre = [(factor.Links.Verify.HREF, Request.verify ⟨transaction.StateToken⟩)]) ∧
    (startMFA c recur n transaction factor).out =
      (recur (n + 1) ({} : api.AuthenticationTransaction) false).out ∧
    (startMFA c recur n transaction factor).next =
      (recur (n + 1) ({} : api.AuthenticationTransaction) false).next := by
  have hb200 : (status == 200) = false := beq_eq_false_iff_ne.mpr (by omega)
  have hb429 : (status == 429) = false := beq_eq_false_iff_ne.mpr h9
  have hsend : sendTransactionRequest c n factor.Links.Verify.HREF
      (.verify ⟨transaction.StateToken⟩) =
      ((sendRequest c n factor.Links.Verify.HREF (.verify ⟨transaction.StateToken⟩)).1,
       n + 1, {}, some e, none) := by
    unfold sendTransactionRequest
    simp only [sendRequest, htr]
    simp [hb200, hb429, if_pos (And.intro h4 h5), hbody]
  have hpost := postEvents_sendTransactionRequest c n factor.Links.Verify.HREF
      (.verify ⟨transaction.StateToken⟩)
  rw [hsend] at hpost
  refine ⟨⟨(sendRequest c n factor.Links.Verify.HREF (.verify ⟨transaction.StateToken⟩)).1,
      ?_, hpost⟩, ?_, ?_⟩
  · simp [startMFA, hsend]
  · simp [startMFA, hsend]
  · simp [startMFA, hsend]

/-- C9 witness: a 403 rejection of the verify POST — the overall outcome
is whatever the dispatcher produces on the returned transaction. -/
theorem C9_startMFA_api_rejection_continues_witness :
    (startMFA c3client stopRecur 0 c10tx c9factor).out =
      (stopRecur 1 ({} : api.AuthenticationTransaction) false).out := by
  have h := C9_startMFA_api_rejection_continues c3client stopRecur 0 c10tx c9factor
      403 c3body c3err rfl (by omega) (by omega) (by omega) rfl
  exact h.2.1

theorem event_not_mem_append {x : Event} {a b : List Event} (ha : x ∉ a) (hb : x ∉ b) :
    x ∉ a ++ b := by
  intro h
  rcases List.mem_append.mp h with h | h
  · exact ha h
  · exact hb h

theorem event_not_mem_cons {x y : Event} {l : List Event} (hxy : x ≠ y) (hl : x ∉ l) :
    x ∉ y :: l := by
  intro h
  rcases List.mem_cons.mp h with h | h
  · exact hxy h
  · exact hl h

/-- sendTransactionRequest emits only log and post events — never a
dispatcher entry. -/
theorem sendTransactionRequest_no_dispatch (c : Client) (n : Nat) (url : String) (req : Request)
    (s : api.TransactionState) (bb : Bool) :
    Event.dispatch s bb ∉ (sendTransactionRequest c n url req).1 := by
  unfold sendTransactionRequest
  rcases htr : c.transport n url req with msg | ⟨status, body⟩
  · simp only [sendRequest, htr]
    split <;> simp
  · simp only [sendRequest, htr]
    split_ifs <;> (try split) <;> simp

/-- The push poll loop emits only the events of its POSTs, sleeps and
printlns — never a dispatcher entry. -/
theorem pushPollLoop_no_dispatch (c : Client) (url : String) (req : Request) :
    ∀ (r n : Nat) (s : api.TransactionState) (bb : Bool),
      Event.dispatch s bb ∉ (pushPollLoop c url req r n).1 := by
  intro r
  induction r with
  | zero =>
    intro n s bb
    have hnod := sendTransactionRequest_no_dispatch c n url req s bb
    rcases hs : sendTransactionRequest c n url req with ⟨evs, n', t', ae, err⟩
    rw [hs] at hnod
    rcases err with _ | e'
    · rcases ae with _ | e2
      · simp only [pushPollLoop, hs]
        split_ifs <;>
          first
            | exact hnod
            | exact event_not_mem_append hnod (by simp)
      · simp only [pushPollLoop, hs]
        exact hnod
    · simp only [pushPollLoop, hs]
      exact hnod
  | succ r ih =>
    intro n s bb
    have hnod := sendTransactionRequest_no_dispatch c n url req s bb
    rcases hs : sendTransactionRequest c n url req with ⟨evs, n', t', ae, err⟩
    rw [hs] at hnod
    rcases err with _ | e'
    · rcases ae with _ | e2
      · simp only [pushPollLoop, hs]
        split_ifs with h1 h2
        · exact hnod
        · exact event_not_mem_append hnod (by simp)
        · exact event_not_mem_append hnod
            (event_not_mem_cons (by simp) (ih n' s bb))
      · simp only [pushPollLoop, hs]
        exact hnod
    · simp only [pushPollLoop, hs]
      exact hnod

/-- The auto-select scan emits only presence-check prompts. -/
theorem autoAttemptLoop_no_dispatch (c : Client) (b : Bool) :
    ∀ (l : List api.Factor) (s : api.TransactionState) (bb : Bool),
      Event.dispatch s bb ∉ (autoAttemptLoop c b l).1 := by
  intro l
  induction l with
  | nil =>
    intro s bb
    simp [autoAttemptLoop]
  | cons f rest ih =>
    intro s bb
    simp only [autoAttemptLoop]
    split_ifs with hc
    · rcases hp : f.Profile with _ | pr
      · simp
      · rcases pr with q | sm | ca | tk | u2 | wa
        · simp
        · simp
        · simp
        · simp
        · dsimp only
          split_ifs
          · simp
          · exact event_not_mem_cons (by simp) (ih s bb)
        · simp
    · exact ih s bb

theorem cancelCurrentFactor_ntd (c : Client) (recur : Recur) (n : Nat)
    (t : api.AuthenticationTransaction)
    (hrec : ∀ (m : Nat) (u : api.AuthenticationTransaction),
      NoTrueDispatch (recur m u false).trace) :
    NoTrueDispatch (cancelCurrentFactor c recur n t).trace := by
  intro s
  have hnod := sendTransactionRequest_no_dispatch c n t.Links.Prev.HREF
      (.verify ⟨t.StateToken⟩) s true
  rcases hs : sendTransactionRequest c n t.Links.Prev.HREF
      (.verify ⟨t.StateToken⟩) with ⟨evs, n', t', ae, err⟩
  rw [hs] at hnod
  rcases err with _ | e'
  · rcases ae with _ | e2
    · simp only [cancelCurrentFactor, hs]
      exact event_not_mem_append hnod (hrec n' t' s)
    · simp only [cancelCurrentFactor, hs]
      exact event_not_mem_append hnod (by simp)
  · simp only [cancelCurrentFactor, hs]
    exact hnod

theorem cancelCurrentFactorWithErrorMessage_ntd (c : Client) (recur : Recur) (n : Nat)
    (t : api.AuthenticationTransaction) (msg : String)
    (hrec : ∀ (m : Nat) (u : api.AuthenticationTransaction),
      NoTrueDispatch (recur m u false).trace) :
    NoTrueDispatch (cancelCurrentFactorWithErrorMessage c recur n t msg).trace := by
  intro s
  simp only [cancelCurrentFactorWithErrorMessage]
  exact event_not_mem_cons (by simp) (cancelCurrentFactor_ntd c recur n t hrec s)

theorem startMFA_ntd (c : Client) (recur : Recur) (n : Nat)
    (t : api.AuthenticationTransaction) (factor : api.Factor)
    (hrec : ∀ (m : Nat) (u : api.AuthenticationTransaction),
      NoTrueDispatch (recur m u false).trace) :
    NoTrueDispatch (startMFA c recur n t factor).trace := by
  intro s
  have hnod := sendTransactionRequest_no_dispatch c n factor.Links.Verify.HREF
      (.verify ⟨t.StateToken⟩) s true
  rcases hs : sendTransactionRequest c n factor.Links.Verify.HREF
      (.verify ⟨t.StateToken⟩) with ⟨evs, n', t', ae, err⟩
  rw [hs] at hnod
  rcases err with _ | e'
  · rcases ae with _ | e2
    · simp only [startMFA, hs]
      exact event_not_mem_append hnod (hrec n' t' s)
    · simp only [startMFA, hs]
      exact event_not_mem_append (event_not_mem_append hnod (by simp)) (hrec n' t' s)
  · simp only [startMFA, hs]
    exact hnod

theorem handleFactorTypeCode_ntd (c : Client) (recur : Recur) (n : Nat)
    (t : api.AuthenticationTransaction)
    (hrec : ∀ (m : Nat) (u : api.AuthenticationTransaction),
      NoTrueDispatch (recur m u false).trace) :
    NoTrueDispatch (handleFactorTypeCode c recur n t).trace := by
  intro s
  rcases hvc : c.verifyCode (apiFactorToPublicFactor t.Embedded.Factor) with em | code
  · simp only [handleFactorTypeCode, hvc]
    exact event_not_mem_cons (by simp)
      (cancelCurrentFactorWithErrorMessage_ntd c recur n t "Cancelled" hrec s)
  · have hnod := sendTransactionRequest_no_dispatch c n t.Links.Next.HREF
        (Request.verifyCode ⟨⟨t.StateToken⟩, code⟩) s true
    rcases hs : sendTransactionRequest c n t.Links.Next.HREF
        (Request.verifyCode ⟨⟨t.StateToken⟩, code⟩) with ⟨evs, n', t', ae, err⟩
    rw [hs] at hnod
    rcases err with _ | e'
    · rcases ae with _ | e2
      · simp only [handleFactorTypeCode, hvc, hs]
        exact event_not_mem_cons (by simp) (event_not_mem_append hnod (hrec n' t' s))
      · simp only [handleFactorTypeCode, hvc, hs]
        exact event_not_mem_cons (by simp) (event_not_mem_append hnod
          (cancelCurrentFactorWithErrorMessage_ntd c recur n' t e2.ErrorSummary hrec s))
    · simp only [handleFactorTypeCode, hvc, hs]
      exact event_not_mem_cons (by simp) hnod

theorem handleFactorTypeU2F_ntd (c : Client) (recur : Recur) (n : Nat)
    (t : api.AuthenticationTransaction)
    (hrec : ∀ (m : Nat) (u : api.AuthenticationTransaction),
      NoTrueDispatch (recur m u false).trace) :
    NoTrueDispatch (handleFactorTypeU2F c recur n t).trace := by
  intro s
  rcases hp : t.Embedded.Factor.Profile with _ | pr
  · simp only [handleFactorTypeU2F, hp]
    exact event_not_mem_cons (by simp)
      (cancelCurrentFactorWithErrorMessage_ntd c recur n t unexpectedErrorMessage hrec s)
  · rcases pr with q | sm | ca | tk | u2 | wa
    case u2f =>
      simp only [handleFactorTypeU2F, hp]
      split
      · exact event_not_mem_cons (by simp) (event_not_mem_cons (by simp)
          (cancelCurrentFactor_ntd c recur n t hrec s))
      · split
        · exact event_not_mem_cons (by simp)
            (sendTransactionRequest_no_dispatch c n _ _ s true)
        · split
          · exact event_not_mem_cons (by simp) (event_not_mem_append
              (sendTransactionRequest_no_dispatch c n _ _ s true)
              (cancelCurrentFactorWithErrorMessage_ntd c recur _ t _ hrec s))
          · exact event_not_mem_cons (by simp) (event_not_mem_append
              (sendTransactionRequest_no_dispatch c n _ _ s true)
              (hrec _ _ s))
    all_goals
      simp only [handleFactorTypeU2F, hp]
    all_goals
      exact event_not_mem_cons (by simp)
        (cancelCurrentFactorWithErrorMessage_ntd c recur n t unexpectedErrorMessage hrec s)

theorem handleFactorTypePush_ntd (c : Client) (recur : Recur) (n : Nat)
    (t : api.AuthenticationTransaction)
    (hrec : ∀ (m : Nat) (u : api.AuthenticationTransaction),
      NoTrueDispatch (recur m u false).trace) :
    NoTrueDispatch (handleFactorTypePush c recur n t).trace := by
  intro s
  have hnod := sendTransactionRequest_no_dispatch c n t.Links.Next.HREF
      (Request.verifyPush ⟨⟨t.StateToken⟩⟩) s true
  rcases hs : sendTransactionRequest c n t.Links.Next.HREF
      (Request.verifyPush ⟨⟨t.StateToken⟩⟩) with ⟨evs, n1, t1, ae, err⟩
  rw [hs] at hnod
  have hnod' : Event.dispatch s true ∉ evs := hnod
  rcases err with _ | e'
  · rcases ae with _ | e2
    · have hpnod := pushPollLoop_no_dispatch c t1.Links.Next.HREF
          (Request.verifyPush ⟨⟨t.StateToken⟩⟩) 10 n1 s true
      rcases hpoll : pushPollLoop c t1.Links.Next.HREF
          (Request.verifyPush ⟨⟨t.StateToken⟩⟩) 10 n1 with ⟨pevs, n2, tfin, perr⟩
      rw [hpoll] at hpnod
      have hpnod' : Event.dispatch s true ∉ pevs := hpnod
      have hcnod := sendTransactionRequest_no_dispatch c n2 tfin.Links.Cancel.HREF
          (Request.verifyPush ⟨⟨t.StateToken⟩⟩) s true
      rcases perr with _ | ge
      · simp only [handleFactorTypePush, hs, hpoll]
        exact event_not_mem_append
          (event_not_mem_append hnod' (event_not_mem_cons (by simp) hpnod'))
          (hrec n2 tfin s)
      · rcases ge with m1 | m2 | m3 | m4 | m5
        case nonFatal =>
          simp only [handleFactorTypePush, hs, hpoll]
          split_ifs
          · exact event_not_mem_append
              (event_not_mem_append
                (event_not_mem_append hnod' (event_not_mem_cons (by simp) hpnod'))
                (by simp))
              hcnod
          · exact event_not_mem_append
              (event_not_mem_append
                (event_not_mem_append hnod' (event_not_mem_cons (by simp) hpnod'))
                (by simp))
              hcnod
        all_goals
          simp only [handleFactorTypePush, hs, hpoll]
        all_goals
          exact event_not_mem_append
            (event_not_mem_append hnod' (event_not_mem_cons (by simp) hpnod'))
            (cancelCurrentFactorWithErrorMessage_ntd c recur n2 t1 _ hrec s)
    · simp only [handleFactorTypePush, hs]
      exact event_not_mem_append hnod'
        (cancelCurrentFactorWithErrorMessage_ntd c recur n1 t1 e2.ErrorSummary hrec s)
  · simp only [handleFactorTypePush, hs]
    exact event_not_mem_append hnod'
      (cancelCurrentFactorWithErrorMessage_ntd c recur n1 t1 "Cancelled" hrec s)

theorem handleMFAChallenge_ntd (c : Client) (recur : Recur) (n : Nat)
    (t : api.AuthenticationTransaction)
    (hrec : ∀ (m : Nat) (u : api.AuthenticationTransaction),
      NoTrueDispatch (recur m u false).trace) :
    NoTrueDispatch (handleMFAChallenge c recur n t).trace := by
  intro s
  simp only [handleMFAChallenge]
  split_ifs <;>
    first
      | exact handleFactorTypeU2F_ntd c recur n t hrec s
      | exact handleFactorTypeCode_ntd c recur n t hrec s
      | exact handleFactorTypePush_ntd c recur n t hrec s
      | exact cancelCurrentFactorWithErrorMessage_ntd c recur n t
          "Sorry, that factor is not supported yet." hrec s

theorem handleMFARequired_ntd (c : Client) (recur : Recur) (n : Nat)
    (t : api.AuthenticationTransaction) (b : Bool)
    (hrec : ∀ (m : Nat) (u : api.AuthenticationTransaction),
      NoTrueDispatch (recur m u false).trace) :
    NoTrueDispatch (handleMFARequired c recur n t b).trace := by
  intro s
  have hand := autoAttemptLoop_no_dispatch c b
      (api.Factors.SupportedFactors t.Embedded.Factors) s true
  rcases ha : autoAttemptLoop c b (api.Factors.SupportedFactors t.Embedded.Factors)
    with ⟨aevs, scan⟩
  rw [ha] at hand
  rcases scan with _ | _ | factor
  · rcases hcf : c.chooseFactor (apiFactorsToPublicFactors
        (api.Factors.SupportedFactors t.Embedded.Factors)) with em | pf
    · simp only [handleMFARequired, ha, hcf]
      split_ifs
      · simp
      · exact event_not_mem_append hand (by simp)
    · rcases hfind : (api.Factors.SupportedFactors t.Embedded.Factors).find?
          (fun apiFactor => apiFactor.Id == pf.Id) with _ | apiFactor
      · simp only [handleMFARequired, ha, hcf, hfind]
        split_ifs
        · simp
        · exact event_not_mem_append hand (by simp)
      · simp only [handleMFARequired, ha, hcf, hfind]
        split_ifs
        · simp
        · exact event_not_mem_append hand (event_not_mem_cons (by simp)
            (startMFA_ntd c recur n t apiFactor hrec s))
  · simp only [handleMFARequired, ha]
    split_ifs
    · simp
    · exact hand
  · simp only [handleMFARequired, ha]
    split_ifs
    · simp
    · exact event_not_mem_append hand (startMFA_ntd c recur n t factor hrec s)

/-- Every dispatcher entry reachable from a dispatch with the auto-select
flag false again carries false: the handlers re-enter handleAuthUserFlow
only with the flag forced to false. -/
theorem handleAuthUserFlow_false_ntd (c : Client) :
    ∀ (fuel n : Nat) (t : api.AuthenticationTransaction),
      NoTrueDispatch (handleAuthUserFlow c fuel n t false).trace := by
  intro fuel
  induction fuel with
  | zero =>
    intro n t s
    simp [handleAuthUserFlow]
  | succ fuel ih =>
    intro n t s
    simp only [handleAuthUserFlow]
    refine event_not_mem_cons (by simp) (event_not_mem_cons (by simp) ?_)
    split_ifs <;>
      first
        | exact handleMFARequired_ntd c (handleAuthUserFlow c fuel) n t false
            (fun m u => ih m u) s
        | exact handleMFAChallenge_ntd c (handleAuthUserFlow c fuel) n t
            (fun m u => ih m u) s
        | simp

theorem dispatchFlags_all_false_of_ntd (l : List Event) (h : NoTrueDispatch l) :
    ∀ x ∈ dispatchFlags l, x = false := by
  intro x hx
  cases x
  case false => rfl
  case true =>
    exfalso
    simp only [dispatchFlags] at hx
    rcases List.mem_filterMap.mp hx with ⟨e, he, hfe⟩
    cases e <;> simp at hfe
    case dispatch st bb =>
      rw [hfe] at he
      exact h st he

/-- C8: on every run of the dispatcher, the autoAttemptU2F flag of the
first dispatch is the caller's argument and the flag of every subsequent
(recursive) dispatch is false — each handler branch that issues a
follow-up POST re-enters handleAuthUserFlow with false, so automatic U2F
selection can occur only on the very first dispatch. -/
theorem C8_auto_select_only_first_dispatch (c : Client) (fuel n : Nat)
    (t : api.AuthenticationTransaction) (b : Bool) :
    (dispatchFlags (handleAuthUserFlow c fuel n t b).trace = [] ∨
     ∃ rest, dispatchFlags (handleAuthUserFlow c fuel n t b).trace = b :: rest) ∧
    ∀ x ∈ (dispatchFlags (handleAuthUserFlow c fuel n t b).trace).drop 1, x = false := by
  cases fuel with
  | zero =>
    constructor
    · left
      simp [handleAuthUserFlow, dispatchFlags]
    · intro x hx
      simp [handleAuthUserFlow, dispatchFlags] at hx
  | succ fuel =>
    have hX : ∃ X, (handleAuthUserFlow c (fuel + 1) n t b).trace =
        Event.dispatch t.Status b ::
          Event.log ("Handling auth user flow: status " ++ goQuote t.Status) :: X ∧
        NoTrueDispatch X := by
      simp only [handleAuthUserFlow]
      split_ifs <;>
        refine ⟨_, rfl, ?_⟩ <;>
        first
          | exact handleMFARequired_ntd c (handleAuthUserFlow c fuel) n t b
              (fun m u => handleAuthUserFlow_false_ntd c fuel m u)
          | exact handleMFAChallenge_ntd c (handleAuthUserFlow c fuel) n t
              (fun m u => handleAuthUserFlow_false_ntd c fuel m u)
          | (intro s; simp)
    obtain ⟨X, hXeq, hXntd⟩ := hX
    have hdf : dispatchFlags (handleAuthUserFlow c (fuel + 1) n t b).trace =
        b :: dispatchFlags X := by
      rw [hXeq]
      rfl
    constructor
    · right
      exact ⟨dispatchFlags X, hdf⟩
    · intro x hx
      rw [hdf] at hx
      simp only [List.drop_succ_cons, List.drop_zero] at hx
      exact dispatchFlags_all_false_of_ntd X hXntd x hx

end OktaAuth
